import Mathlib

/-!
# Molole: a shallow embedding of `dma/dma.c`, `clock/clock.c`, `error/error.h` and
`trunk/pwm/pwm.c`

Conventions of the embedding.

* C `int` values are `Int`; C `unsigned int` values and data pointers (both 16 bits wide on the
  dsPIC33) are `Nat`, and every C operation that can wrap is written with an explicit `% 65536`.
* A function pointer (`dma_callback`) is a `Nat`; `0` is the null pointer.
* The special function registers of the eight DMA channels are one record `DmaRegs` per channel.
  Values assigned to a register field are stored as assigned (the device header that fixes the
  field widths is not part of the library).
* `error_report` hands its arguments to a user supplied sink and returns; a function of the
  embedding returns the list of reports it made next to the state it leaves.
-/

namespace Molole

/-! ## Error reporting (`error/error.h`) -/

/-- Error identifiers used by the modules embedded here, kept as the names the C sources use. -/
inductive ErrorId where
  | DMA_ERROR_INVALID_CHANNEL
  | DMA_ERROR_INVALID_REQUEST_SOURCE
  | DMA_ERROR_INVALID_DATA_SIZE
  | DMA_ERROR_INVALID_TRANSFER_DIRECTION
  | DMA_ERROR_INVALID_INTERRUPT_POSITION
  | DMA_ERROR_INVALID_WRITE_NULL_MODE
  | DMA_ERROR_INVALID_ADDRESSING_MODE
  | DMA_ERROR_INVALID_OPERATING_MODE
  | DMA_ERROR_INVALID_ADDRESS
  | GENERIC_ERROR_INVALID_INTERRUPT_PRIORITY
  | PWM_ERROR_INVALID_PWM_ID
  deriving DecidableEq, Repr

/-- One call `error_report(__FILE__, __LINE__, id, arg)`: the identifier and the value of the
variable whose address is passed as `arg`. -/
structure ErrorReport where
  id : ErrorId
  arg : Int
  deriving DecidableEq, Repr

/-- The reporting half of `ERROR(id, arg)`; the `return` half is the control flow of the caller. -/
def error_report (id : ErrorId) (arg : Int) : List ErrorReport := [⟨id, arg⟩]

/-- Modelled from the spec: the range-check helper `ERROR_CHECK_RANGE(v, lo, hi, id)` is used by
`dma.c` but defined in no file under `src/`; it reports `id` and returns when `v` is outside
`[lo, hi]`. This is its test. -/
def ERROR_CHECK_RANGE (v lo hi : Int) : Bool := decide (v < lo) || decide (v > hi)

/-! ## Constants of `dma.h` -/

/-- Modelled from the spec: `dma.h` is not under `src/`; channels are indexed `0..7`. -/
def DMA_CHANNEL (x : Nat) : Int := (x : Int)

/-- Modelled from the spec: `dma.h` is not under `src/`; the four operating modes are, in the
order of the legal range `0..3`, continuous, one-shot, continuous-ping-pong, one-shot-ping-pong. -/
def DMA_OPERATING_CONTINUOUS : Int := 0

/-- Modelled from the spec: see `DMA_OPERATING_CONTINUOUS`. -/
def DMA_OPERATING_ONE_SHOT : Int := 1

/-- Modelled from the spec: see `DMA_OPERATING_CONTINUOUS`. -/
def DMA_OPERATING_CONTINUOUS_PING_PONG : Int := 2

/-- Modelled from the spec: see `DMA_OPERATING_CONTINUOUS`. -/
def DMA_OPERATING_ONE_SHOT_PING_PONG : Int := 3

/-- What the C sources leave to the build: the address of the linker symbol `_DMA_BASE`, the
values of the twenty-two `DMA_INTERRUPT_SOURCE_*` enumerators of `dma.h`, and the value found in
the return register when `get_offset` leaves through `ERROR` (a bare `return;` in a function
returning `unsigned int`), as a function of the two arguments of that call. -/
structure Platform where
  DMA_BASE : Nat
  request_sources : List Int
  indeterminate : Nat → Nat → Nat

/-! ## State -/

/-- Special function registers of one DMA channel `x`: the fields of `DMAxCON` and `DMAxREQ`,
the registers `DMAxSTA`, `DMAxSTB`, `DMAxPAD`, `DMAxCNT`, and the interrupt controller bits
`_DMAxIF`, `_DMAxIE`, `_DMAxIP`. -/
structure DmaRegs where
  CHEN : Int
  SIZE : Int
  DIR : Int
  HALF : Int
  NULLW : Int
  AMODE : Int
  MODE : Int
  IRQSEL : Int
  FORCE : Int
  STA : Nat
  STB : Nat
  PAD : Nat
  CNT : Nat
  IF : Int
  IE : Int
  IP : Int
  deriving DecidableEq, Repr

/-- The state the DMA wrapper reads and writes: the register block of each channel, the static
arrays `DMA_Data` and `pingpong_dma` of `dma.c`, and `clock_idle_disabled` of `clock.c`. Only the
indices `0..7` of the three tables are used. -/
structure Machine where
  DMA : Nat → DmaRegs
  DMA_Data : Nat → Nat
  pingpong_dma : Nat → Nat
  clock_idle_disabled : Int

/-- Array or register-file update at one index. -/
def upd {α : Type} (f : Nat → α) (i : Nat) (v : α) : Nat → α :=
  fun j => if j = i then v else f j

/-- A register block with every field zero: channel disabled, interrupt masked and not
pending. -/
def DmaRegs.reset : DmaRegs :=
  { CHEN := 0, SIZE := 0, DIR := 0, HALF := 0, NULLW := 0, AMODE := 0, MODE := 0, IRQSEL := 0,
    FORCE := 0, STA := 0, STB := 0, PAD := 0, CNT := 0, IF := 0, IE := 0, IP := 0 }

/-- The state at start-up: every channel disabled with its interrupt masked, the
zero-initialised statics of `dma.c` (null callbacks, half-indicators 0), and
`clock_idle_disabled = 1000`. -/
def Machine.initial : Machine :=
  { DMA := fun _ => DmaRegs.reset
    DMA_Data := fun _ => 0
    pingpong_dma := fun _ => 0
    clock_idle_disabled := 1000 }

/-! ## `clock.c`: idle inhibition -/

/-- Modelled from the spec: `atomic_add(&x, d)` is called by `clock.c` but defined in no file
under `src/`; the spec describes the two callers as a `+1` and a `-1` update of the counter. The
result of adding `d` to `x`. -/
def atomic_add (x d : Int) : Int := x + d

/-- The C function `clock_disable_idle`. -/
def clock_disable_idle (s : Machine) : Machine :=
  if s.clock_idle_disabled ≤ 2000 ∧ s.clock_idle_disabled ≥ 1000 then
    { s with clock_idle_disabled := atomic_add s.clock_idle_disabled 1 }
  else s

/-- The C function `clock_enable_idle`. -/
def clock_enable_idle (s : Machine) : Machine :=
  if s.clock_idle_disabled ≤ 2000 ∧ s.clock_idle_disabled ≥ 1000 then
    { s with clock_idle_disabled := atomic_add s.clock_idle_disabled (-1) }
  else s

/-! ## `dma.c` -/

/-- The C function `get_offset`: the value returned and the reports made. On the `ERROR` path
the function returns without a value; the caller then reads `p.indeterminate addr size`. -/
def get_offset (p : Platform) (addr size : Nat) : Nat × List ErrorReport :=
  if addr = 0 then (0, [])
  else
    let offset := (addr % 65536 + (65536 - p.DMA_BASE % 65536)) % 65536
    if offset > addr % 65536 ∨ (offset + size) % 65536 > (p.DMA_BASE + 0x2000) % 65536 then
      (p.indeterminate addr size, error_report .DMA_ERROR_INVALID_ADDRESS addr)
    else (offset, [])

/-- The C expression `transfer_count * (2-data_size)` in 16-bit unsigned arithmetic. -/
def buffer_size (transfer_count : Nat) (data_size : Int) : Nat :=
  (((transfer_count : Int) * (2 - data_size)) % 65536).toNat

/-- One `case DMA_CHANNEL_x:` block of `dma_init_channel`. The eight blocks differ in the channel
`x` whose registers they write and in the index `slot` of `DMA_Data` that receives the callback. -/
def dma_init_channel_case (p : Platform) (x slot : Nat)
    (request_source data_size transfer_dir interrupt_pos null_write addressing_mode
      operating_mode : Int)
    (a b peripheral_address transfer_count callback : Nat) (s : Machine) :
    Machine × List ErrorReport :=
  let ra := get_offset p a (buffer_size transfer_count data_size)
  let rb := get_offset p b (buffer_size transfer_count data_size)
  let r : DmaRegs :=
    { s.DMA x with
      CHEN := 0
      IRQSEL := request_source
      SIZE := data_size
      DIR := transfer_dir
      HALF := interrupt_pos
      NULLW := null_write
      AMODE := addressing_mode
      MODE := operating_mode
      STA := ra.1
      STB := rb.1
      PAD := peripheral_address
      CNT := (transfer_count + 65535) % 65536
      IF := 0
      IE := if callback ≠ 0 then 1 else 0 }
  ({ s with
      DMA := upd s.DMA x r
      DMA_Data := if callback ≠ 0 then upd s.DMA_Data slot callback else s.DMA_Data },
    ra.2 ++ rb.2)

/-- The C function `dma_init_channel`. -/
def dma_init_channel (p : Platform)
    (channel request_source data_size transfer_dir interrupt_pos null_write addressing_mode
      operating_mode : Int)
    (a b peripheral_address transfer_count callback : Nat) (s : Machine) :
    Machine × List ErrorReport :=
  if request_source ∉ p.request_sources then
    (s, error_report .DMA_ERROR_INVALID_REQUEST_SOURCE request_source)
  else if ERROR_CHECK_RANGE data_size 0 1 then
    (s, error_report .DMA_ERROR_INVALID_DATA_SIZE data_size)
  else if ERROR_CHECK_RANGE transfer_dir 0 1 then
    (s, error_report .DMA_ERROR_INVALID_TRANSFER_DIRECTION transfer_dir)
  else if ERROR_CHECK_RANGE interrupt_pos 0 1 then
    (s, error_report .DMA_ERROR_INVALID_INTERRUPT_POSITION interrupt_pos)
  else if ERROR_CHECK_RANGE null_write 0 1 then
    (s, error_report .DMA_ERROR_INVALID_WRITE_NULL_MODE null_write)
  else if ERROR_CHECK_RANGE addressing_mode 0 2 then
    (s, error_report .DMA_ERROR_INVALID_ADDRESSING_MODE addressing_mode)
  else if ERROR_CHECK_RANGE operating_mode 0 3 then
    (s, error_report .DMA_ERROR_INVALID_OPERATING_MODE operating_mode)
  else if channel = DMA_CHANNEL 0 then
    dma_init_channel_case p 0 0 request_source data_size transfer_dir interrupt_pos null_write
      addressing_mode operating_mode a b peripheral_address transfer_count callback s
  else if channel = DMA_CHANNEL 1 then
    dma_init_channel_case p 1 1 request_source data_size transfer_dir interrupt_pos null_write
      addressing_mode operating_mode a b peripheral_address transfer_count callback s
  else if channel = DMA_CHANNEL 2 then
    dma_init_channel_case p 2 2 request_source data_size transfer_dir interrupt_pos null_write
      addressing_mode operating_mode a b peripheral_address transfer_count callback s
  else if channel = DMA_CHANNEL 3 then
    dma_init_channel_case p 3 3 request_source data_size transfer_dir interrupt_pos null_write
      addressing_mode operating_mode a b peripheral_address transfer_count callback s
  else if channel = DMA_CHANNEL 4 then
    dma_init_channel_case p 4 4 request_source data_size transfer_dir interrupt_pos null_write
      addressing_mode operating_mode a b peripheral_address transfer_count callback s
  else if channel = DMA_CHANNEL 5 then
    -- dma.c line 347: the block of channel 5 writes `DMA_Data[0]`
    dma_init_channel_case p 5 0 request_source data_size transfer_dir interrupt_pos null_write
      addressing_mode operating_mode a b peripheral_address transfer_count callback s
  else if channel = DMA_CHANNEL 6 then
    dma_init_channel_case p 6 6 request_source data_size transfer_dir interrupt_pos null_write
      addressing_mode operating_mode a b peripheral_address transfer_count callback s
  else if channel = DMA_CHANNEL 7 then
    dma_init_channel_case p 7 7 request_source data_size transfer_dir interrupt_pos null_write
      addressing_mode operating_mode a b peripheral_address transfer_count callback s
  else (s, error_report .DMA_ERROR_INVALID_CHANNEL channel)

/-- One `case DMA_CHANNEL_x:` block of `dma_enable_channel`; the eight blocks differ in `x`. -/
def dma_enable_channel_case (x : Nat) (s : Machine) : Machine :=
  let s1 : Machine := { s with DMA := upd s.DMA x { s.DMA x with CHEN := 1 } }
  if (s1.DMA x).MODE = DMA_OPERATING_ONE_SHOT ∨
      (s1.DMA x).MODE = DMA_OPERATING_ONE_SHOT_PING_PONG then
    clock_disable_idle s1
  else s1

/-- The C function `dma_enable_channel`. -/
def dma_enable_channel (channel : Int) (s : Machine) : Machine × List ErrorReport :=
  if channel = DMA_CHANNEL 0 then (dma_enable_channel_case 0 s, [])
  else if channel = DMA_CHANNEL 1 then (dma_enable_channel_case 1 s, [])
  else if channel = DMA_CHANNEL 2 then (dma_enable_channel_case 2 s, [])
  else if channel = DMA_CHANNEL 3 then (dma_enable_channel_case 3 s, [])
  else if channel = DMA_CHANNEL 4 then (dma_enable_channel_case 4 s, [])
  else if channel = DMA_CHANNEL 5 then (dma_enable_channel_case 5 s, [])
  else if channel = DMA_CHANNEL 6 then (dma_enable_channel_case 6 s, [])
  else if channel = DMA_CHANNEL 7 then (dma_enable_channel_case 7 s, [])
  else (s, error_report .DMA_ERROR_INVALID_CHANNEL channel)

/-- One `case DMA_CHANNEL_x:` block of `dma_disable_channel`; the eight blocks differ in `x`. -/
def dma_disable_channel_case (x : Nat) (s : Machine) : Machine :=
  let s1 : Machine :=
    { s with
      DMA := upd s.DMA x { s.DMA x with CHEN := 0 }
      pingpong_dma := upd s.pingpong_dma x 0 }
  if (s1.DMA x).MODE = DMA_OPERATING_ONE_SHOT ∨
      (s1.DMA x).MODE = DMA_OPERATING_ONE_SHOT_PING_PONG then
    clock_enable_idle s1
  else s1

/-- The C function `dma_disable_channel`. -/
def dma_disable_channel (channel : Int) (s : Machine) : Machine × List ErrorReport :=
  if channel = DMA_CHANNEL 0 then (dma_disable_channel_case 0 s, [])
  else if channel = DMA_CHANNEL 1 then (dma_disable_channel_case 1 s, [])
  else if channel = DMA_CHANNEL 2 then (dma_disable_channel_case 2 s, [])
  else if channel = DMA_CHANNEL 3 then (dma_disable_channel_case 3 s, [])
  else if channel = DMA_CHANNEL 4 then (dma_disable_channel_case 4 s, [])
  else if channel = DMA_CHANNEL 5 then (dma_disable_channel_case 5 s, [])
  else if channel = DMA_CHANNEL 6 then (dma_disable_channel_case 6 s, [])
  else if channel = DMA_CHANNEL 7 then (dma_disable_channel_case 7 s, [])
  else (s, error_report .DMA_ERROR_INVALID_CHANNEL channel)

/-- One `case DMA_CHANNEL_x:` line of `dma_start_transfer`; the eight lines differ in `x`. -/
def dma_start_transfer_case (x : Nat) (s : Machine) : Machine :=
  { s with DMA := upd s.DMA x { s.DMA x with FORCE := 1 } }

/-- The C function `dma_start_transfer`. -/
def dma_start_transfer (channel : Int) (s : Machine) : Machine × List ErrorReport :=
  if channel = DMA_CHANNEL 0 then (dma_start_transfer_case 0 s, [])
  else if channel = DMA_CHANNEL 1 then (dma_start_transfer_case 1 s, [])
  else if channel = DMA_CHANNEL 2 then (dma_start_transfer_case 2 s, [])
  else if channel = DMA_CHANNEL 3 then (dma_start_transfer_case 3 s, [])
  else if channel = DMA_CHANNEL 4 then (dma_start_transfer_case 4 s, [])
  else if channel = DMA_CHANNEL 5 then (dma_start_transfer_case 5 s, [])
  else if channel = DMA_CHANNEL 6 then (dma_start_transfer_case 6 s, [])
  else if channel = DMA_CHANNEL 7 then (dma_start_transfer_case 7 s, [])
  else (s, error_report .DMA_ERROR_INVALID_CHANNEL channel)

/-- One `case DMA_CHANNEL_x:` line of `dma_set_priority`; the eight lines differ in `x`. -/
def dma_set_priority_case (x : Nat) (prio : Int) (s : Machine) : Machine :=
  { s with DMA := upd s.DMA x { s.DMA x with IP := prio } }

/-- The C function `dma_set_priority`. -/
def dma_set_priority (channel prio : Int) (s : Machine) : Machine × List ErrorReport :=
  if ERROR_CHECK_RANGE prio 1 7 then
    (s, error_report .GENERIC_ERROR_INVALID_INTERRUPT_PRIORITY prio)
  else if channel = DMA_CHANNEL 0 then (dma_set_priority_case 0 prio s, [])
  else if channel = DMA_CHANNEL 1 then (dma_set_priority_case 1 prio s, [])
  else if channel = DMA_CHANNEL 2 then (dma_set_priority_case 2 prio s, [])
  else if channel = DMA_CHANNEL 3 then (dma_set_priority_case 3 prio s, [])
  else if channel = DMA_CHANNEL 4 then (dma_set_priority_case 4 prio s, [])
  else if channel = DMA_CHANNEL 5 then (dma_set_priority_case 5 prio s, [])
  else if channel = DMA_CHANNEL 6 then (dma_set_priority_case 6 prio s, [])
  else if channel = DMA_CHANNEL 7 then (dma_set_priority_case 7 prio s, [])
  else (s, error_report .DMA_ERROR_INVALID_CHANNEL channel)

/-! ### Interrupt service routines -/

/-- What a registered callback does when it is called: the table maps a function pointer to the
state transformer of the function it points to, given the two arguments of `dma_callback`. -/
abbrev CallbackTable := Nat → Int → Bool → Machine → Machine

/-- One call made through `DMA_Data[x]`: the pointer called and the two arguments passed. -/
structure Invocation where
  callback : Nat
  channel : Int
  is_first_half : Bool
  deriving DecidableEq, Repr

/-- The C functions `_DMA0Interrupt` to `_DMA7Interrupt`, which differ in the channel number `x`
only: the state the handler leaves and the call it made. Calling through a null `DMA_Data[x]` is
undefined and gives `none`. -/
def DMAxInterrupt (code : CallbackTable) (x : Nat) (s : Machine) : Option (Machine × Invocation) :=
  let s1 : Machine := { s with DMA := upd s.DMA x { s.DMA x with IF := 0 } }
  if s1.DMA_Data x = 0 then none
  else
    let first : Bool := decide (s1.pingpong_dma x = 0)
    let s2 : Machine := code (s1.DMA_Data x) (DMA_CHANNEL x) first s1
    some ({ s2 with pingpong_dma := upd s2.pingpong_dma x ((s2.pingpong_dma x ^^^ 1) % 256) },
      ⟨s1.DMA_Data x, DMA_CHANNEL x, first⟩)

/-- The handler of channel `x` run `n` times in a row: the final state and the calls made, in
order. -/
def DMAxInterrupts (code : CallbackTable) (x : Nat) : Nat → Machine →
    Option (Machine × List Invocation)
  | 0, s => some (s, [])
  | n + 1, s =>
    match DMAxInterrupt code x s with
    | none => none
    | some (s1, i) =>
      match DMAxInterrupts code x n s1 with
      | none => none
      | some (s2, t) => some (s2, i :: t)

/-- Bytes per transfer unit: the factor `2-data_size` of `dma_init_channel` (2 for word data,
`data_size = 0`; 1 for byte data, `data_size = 1`). -/
def unit_size (data_size : Int) : Nat := (2 - data_size).toNat

/-- The index of `DMA_Data` that the block of channel `x` in `dma_init_channel` writes. -/
def callback_slot (x : Nat) : Nat := if x = 5 then 0 else x

/-! ## `clock.c`: idle mode and clock constants -/

/-- The C function `clock_idle`: the state it leaves (it writes nothing) and whether it executed
the low-power wait `pwrsav #1`. -/
def clock_idle (s : Machine) : Machine × Bool :=
  if s.clock_idle_disabled = 1000 then (s, true) else (s, false)

/-- The static `Clock_Data` of `clock.c` and the PLL configuration fields `setup_pll` writes. -/
structure ClockState where
  PLLPRE : Nat
  PLLDIV : Nat
  PLLPOST : Nat
  fcy : Nat
  target_bogomips : Nat
  deriving DecidableEq, Repr

/-- The C function `setup_pll`, as far as the PLL fields and `Clock_Data` go: the oscillator
switch (the `OSCCON` writes of `osc` and the busy-waits on the hardware status bits) and the
final write of `SRbits.IPL` are left out. `unsigned` is 16 bits wide and `unsigned long` 32 bits;
a division by zero gives `none`. -/
def setup_pll (n1 m n2 fin : Nat) (k : ClockState) : Option ClockState :=
  let k1 : ClockState :=
    { k with
      PLLPRE := (n1 + 65534) % 65536
      PLLDIV := (m + 65534) % 65536
      PLLPOST := if n2 = 2 then 0 else if n2 = 4 then 1 else if n2 = 8 then 3 else 0 }
  if (n1 * n2) % 4294967296 = 0 then none
  else
    let fosc := ((fin * m) % 4294967296) / ((n1 * n2) % 4294967296)
    let fcy := fosc / 2
    some { k1 with
      fcy := fcy
      target_bogomips := (((fcy + 500000) % 4294967296) / 1000000) % 65536 }

/-- The C function `clock_init_internal_rc_from_n1_m_n2`. -/
def clock_init_internal_rc_from_n1_m_n2 (n1 m n2 : Nat) (k : ClockState) : Option ClockState :=
  setup_pll n1 m n2 7370000 k

/-- The C function `clock_init_internal_rc_30`. -/
def clock_init_internal_rc_30 (k : ClockState) : Option ClockState :=
  match clock_init_internal_rc_from_n1_m_n2 8 130 2 k with
  | none => none
  | some k1 => some { k1 with target_bogomips := 30 }

/-- The C function `clock_init_internal_rc_40`. -/
def clock_init_internal_rc_40 (k : ClockState) : Option ClockState :=
  match clock_init_internal_rc_from_n1_m_n2 6 130 2 k with
  | none => none
  | some k1 => some { k1 with target_bogomips := 40 }

/-- The C function `clock_get_target_bogomips`. -/
def clock_get_target_bogomips (k : ClockState) : Nat := k.target_bogomips

/-! ### `trunk/clock/clock.c`: the earlier idle switch -/

/-- The static `clock_idle_enabled` of `trunk/clock/clock.c` (`bool` is `int`; it starts as
`true`, which is 1). -/
structure TrunkClock where
  clock_idle_enabled : Int
  deriving DecidableEq, Repr

/-- The C function `clock_disable_idle` of `trunk/clock/clock.c`. -/
def TrunkClock.clock_disable_idle (t : TrunkClock) : TrunkClock :=
  { t with clock_idle_enabled := 0 }

/-- The C function `clock_idle` of `trunk/clock/clock.c`: the state it leaves and whether it
executed `pwrsav #1`. -/
def TrunkClock.clock_idle (t : TrunkClock) : TrunkClock × Bool :=
  if t.clock_idle_enabled ≠ 0 then (t, true) else (t, false)

/-! ## `trunk/pwm/pwm.c` -/

/-- The enumerators of `pwm.h` that `pwm_disable` and `pwm_set_duty` switch on; `pwm.h` is not
among the sources, so their values are left open. -/
structure PwmHeader where
  PWM_1 : Int
  PWM_2 : Int
  PWM_3 : Int
  PWM_4 : Int
  PWM_ONE_DEFAULT_LOW : Int
  PWM_BOTH_DEFAULT_LOW : Int
  PWM_ONE_DEFAULT_HIGH : Int
  PWM_BOTH_DEFAULT_HIGH : Int

/-- The PWM registers written by `pwm_disable` and `pwm_set_duty`, and the static `PWM_Data`. The
per-output fields (`PENxL`, `PENxH`, `PMODx` of `PWMCON1`, `POVDxL`, `POVDxH`, `POUTxL`, `POUTxH`
of `OVDCON`, and `PDCx`) are tables indexed by the output number `x = 1..4`. -/
structure PwmState where
  UDIS : Int
  PENL : Nat → Int
  PENH : Nat → Int
  PMOD : Nat → Int
  POVDL : Nat → Int
  POVDH : Nat → Int
  POUTL : Nat → Int
  POUTH : Nat → Int
  PDC : Nat → Nat
  mode : Int → Int
  period : Nat

/-- Conversion of an `int` to `unsigned int` (16 bits). -/
def to_unsigned (x : Int) : Nat := (x % 65536).toNat

/-- Conversion of an `unsigned int` to `int` (16 bits, two's complement). -/
def to_int (n : Nat) : Int :=
  if n % 65536 < 32768 then ((n % 65536 : Nat) : Int) else ((n % 65536 : Nat) : Int) - 65536

/-- The C function `pwm_disable`. -/
def pwm_disable (h : PwmHeader) (pwm_id : Int) (s : PwmState) : PwmState × List ErrorReport :=
  let s1 : PwmState := { s with UDIS := 1 }
  if pwm_id = h.PWM_1 then
    ({ s1 with PENL := upd s1.PENL 1 0, PENH := upd s1.PENH 1 0, UDIS := 0 }, [])
  else if pwm_id = h.PWM_2 then
    ({ s1 with PENL := upd s1.PENL 2 0, PENH := upd s1.PENH 2 0, UDIS := 0 }, [])
  else if pwm_id = h.PWM_3 then
    ({ s1 with PENL := upd s1.PENL 3 0, PENH := upd s1.PENH 3 0, UDIS := 0 }, [])
  else if pwm_id = h.PWM_4 then
    ({ s1 with PENL := upd s1.PENL 4 0, PENH := upd s1.PENH 4 0, UDIS := 0 }, [])
  else (s1, error_report .PWM_ERROR_INVALID_PWM_ID pwm_id)

/-- One `case PWM_x:` block of `pwm_set_duty`, up to its `break`; the four blocks differ in the
output number `x`. -/
def pwm_set_duty_case (h : PwmHeader) (x : Nat) (pwm_id duty : Int) (s : PwmState) : PwmState :=
  let s1 : PwmState :=
    { s with PENL := upd s.PENL x 1, PENH := upd s.PENH x 1, PMOD := upd s.PMOD x 1 }
  let m := s1.mode pwm_id
  if duty = 0 then
    let s2 : PwmState := { s1 with POVDL := upd s1.POVDL x 0, POVDH := upd s1.POVDH x 0 }
    if m = h.PWM_ONE_DEFAULT_LOW ∨ m = h.PWM_BOTH_DEFAULT_LOW then
      { s2 with POUTL := upd s2.POUTL x 0, POUTH := upd s2.POUTH x 0 }
    else if m = h.PWM_ONE_DEFAULT_HIGH ∨ m = h.PWM_BOTH_DEFAULT_HIGH then
      { s2 with POUTL := upd s2.POUTL x 1, POUTH := upd s2.POUTH x 1 }
    else s2
  else if duty > 0 then
    if m = h.PWM_ONE_DEFAULT_LOW then
      { s1 with
        POUTL := upd s1.POUTL x 0, POVDL := upd s1.POVDL x 0, POVDH := upd s1.POVDH x 1
        PDC := upd s1.PDC x (to_unsigned duty) }
    else if m = h.PWM_BOTH_DEFAULT_LOW then
      { s1 with
        POVDH := upd s1.POVDH x 1, POVDL := upd s1.POVDL x 1
        PDC := upd s1.PDC x (to_unsigned duty) }
    else if m = h.PWM_ONE_DEFAULT_HIGH then
      let d1 : Int := if to_unsigned duty > s1.period % 65536 then to_int s1.period else duty
      let d2 : Int := to_int (s1.period % 65536 + (65536 - to_unsigned d1))
      { s1 with
        POUTL := upd s1.POUTL x 1, POVDL := upd s1.POVDL x 0, POVDH := upd s1.POVDH x 1
        PDC := upd s1.PDC x (to_unsigned d2) }
    else if m = h.PWM_BOTH_DEFAULT_HIGH then
      let d1 : Int := if to_unsigned duty > s1.period % 65536 then to_int s1.period else duty
      let d2 : Int := to_int (s1.period % 65536 + (65536 - to_unsigned d1))
      { s1 with
        POVDL := upd s1.POVDL x 1, POVDH := upd s1.POVDH x 1
        PDC := upd s1.PDC x (to_unsigned d2) }
    else { s1 with PDC := upd s1.PDC x (to_unsigned duty) }
  else
    let neg_period : Nat := (65536 - s1.period % 65536) % 65536
    if m = h.PWM_ONE_DEFAULT_LOW then
      { s1 with
        POUTH := upd s1.POUTH x 0, POVDH := upd s1.POVDH x 0, POVDL := upd s1.POVDL x 1
        PDC := upd s1.PDC x (to_unsigned (-duty)) }
    else if m = h.PWM_BOTH_DEFAULT_LOW then
      { s1 with
        POVDH := upd s1.POVDH x 1, POVDL := upd s1.POVDL x 1
        PDC := upd s1.PDC x (to_unsigned (-duty)) }
    else if m = h.PWM_ONE_DEFAULT_HIGH then
      let d1 : Int := if to_unsigned duty < neg_period then to_int neg_period else duty
      let d2 : Int := to_int (neg_period + (65536 - to_unsigned d1))
      { s1 with
        POUTH := upd s1.POUTH x 1, POVDH := upd s1.POVDH x 0, POVDL := upd s1.POVDL x 1
        PDC := upd s1.PDC x (to_unsigned (-d2)) }
    else if m = h.PWM_BOTH_DEFAULT_HIGH then
      let d1 : Int := if to_unsigned duty < neg_period then to_int neg_period else duty
      let d2 : Int := to_int (neg_period + (65536 - to_unsigned d1))
      { s1 with
        POVDL := upd s1.POVDL x 1, POVDH := upd s1.POVDH x 1
        PDC := upd s1.PDC x (to_unsigned (-d2)) }
    else { s1 with PDC := upd s1.PDC x (to_unsigned (-duty)) }

/-- The C function `pwm_set_duty`. -/
def pwm_set_duty (h : PwmHeader) (pwm_id duty : Int) (s : PwmState) :
    PwmState × List ErrorReport :=
  let s1 : PwmState := { s with UDIS := 1 }
  if pwm_id = h.PWM_1 then ({ pwm_set_duty_case h 1 pwm_id duty s1 with UDIS := 0 }, [])
  else if pwm_id = h.PWM_2 then ({ pwm_set_duty_case h 2 pwm_id duty s1 with UDIS := 0 }, [])
  else if pwm_id = h.PWM_3 then ({ pwm_set_duty_case h 3 pwm_id duty s1 with UDIS := 0 }, [])
  else if pwm_id = h.PWM_4 then ({ pwm_set_duty_case h 4 pwm_id duty s1 with UDIS := 0 }, [])
  else (s1, error_report .PWM_ERROR_INVALID_PWM_ID pwm_id)

/-! ### Sequences of calls -/

/-- One call of `clock_disable_idle` or of `clock_enable_idle`. -/
inductive ClockCall where
  | disable_idle
  | enable_idle
  deriving DecidableEq, Repr

/-- The state after one call of the idle inhibition interface. -/
def ClockCall.run : ClockCall → Machine → Machine
  | .disable_idle, s => clock_disable_idle s
  | .enable_idle, s => clock_enable_idle s

/-- The state after a sequence of calls of the idle inhibition interface, first call first. -/
def run_clock_calls : List ClockCall → Machine → Machine
  | [], s => s
  | call :: rest, s => run_clock_calls rest (call.run s)

/-- One call of an exported function of `dma.c`, with its arguments. -/
inductive DmaCall where
  | init_channel (channel request_source data_size transfer_dir interrupt_pos null_write
      addressing_mode operating_mode : Int) (a b peripheral_address transfer_count callback : Nat)
  | enable_channel (channel : Int)
  | disable_channel (channel : Int)
  | start_transfer (channel : Int)
  | set_priority (channel prio : Int)
  deriving DecidableEq, Repr

/-- The `channel` argument of a call. -/
def DmaCall.channel : DmaCall → Int
  | .init_channel channel _ _ _ _ _ _ _ _ _ _ _ _ => channel
  | .enable_channel channel => channel
  | .disable_channel channel => channel
  | .start_transfer channel => channel
  | .set_priority channel _ => channel

/-- The state after one call of an exported function of `dma.c`. -/
def DmaCall.run (p : Platform) : DmaCall → Machine → Machine
  | .init_channel channel request_source data_size transfer_dir interrupt_pos null_write
      addressing_mode operating_mode a b peripheral_address transfer_count callback, s =>
    (dma_init_channel p channel request_source data_size transfer_dir interrupt_pos null_write
      addressing_mode operating_mode a b peripheral_address transfer_count callback s).1
  | .enable_channel channel, s => (dma_enable_channel channel s).1
  | .disable_channel channel, s => (dma_disable_channel channel s).1
  | .start_transfer channel, s => (dma_start_transfer channel s).1
  | .set_priority channel prio, s => (dma_set_priority channel prio s).1

/-- The state after a sequence of calls of exported functions of `dma.c`, first call first. -/
def run_dma_calls (p : Platform) : List DmaCall → Machine → Machine
  | [], s => s
  | call :: rest, s => run_dma_calls p rest (call.run p s)

/-- Whether every call of a sequence is on a valid channel (`0..7`). -/
def on_valid_channels (calls : List DmaCall) : Bool :=
  calls.all (fun call => decide (0 ≤ call.channel) && decide (call.channel ≤ 7))

/-- Whether a call respects the enable bit of its channel in the state it is made in: the channel
is valid, `dma_init_channel` and `dma_enable_channel` find the enable bit clear, and
`dma_disable_channel` finds it set. -/
def DmaCall.paired (call : DmaCall) (s : Machine) : Bool :=
  decide (0 ≤ call.channel) && decide (call.channel ≤ 7) &&
    match call with
    | .init_channel channel _ _ _ _ _ _ _ _ _ _ _ _ => decide ((s.DMA channel.toNat).CHEN = 0)
    | .enable_channel channel => decide ((s.DMA channel.toNat).CHEN = 0)
    | .disable_channel channel => decide ((s.DMA channel.toNat).CHEN = 1)
    | .start_transfer _ => true
    | .set_priority _ _ => true

/-- Whether every call of a sequence run from `s` is `paired` in the state it is made in. -/
def paired_calls (p : Platform) : List DmaCall → Machine → Bool
  | [], _ => true
  | call :: rest, s => call.paired s && paired_calls p rest (call.run p s)

/-- Whether a channel with these registers is enabled in one-shot or one-shot-ping-pong mode. -/
def one_shot_enabled (r : DmaRegs) : Bool :=
  decide (r.CHEN = 1) &&
    (decide (r.MODE = DMA_OPERATING_ONE_SHOT) ||
      decide (r.MODE = DMA_OPERATING_ONE_SHOT_PING_PONG))

/-- The number of channels `0..7` whose enable bit is set and whose operating mode is one-shot or
one-shot-ping-pong. -/
def one_shot_enabled_count (s : Machine) : Nat :=
  ((List.range 8).filter (fun c => one_shot_enabled (s.DMA c))).length

/-! ### Sample data for evaluating the definitions -/

/-- A sample platform: DMA RAM at `0x4000`, twenty-two request source numbers, and `0xBEEF` as
the value read after `get_offset` left through `ERROR`. -/
def samplePlatform : Platform :=
  { DMA_BASE := 0x4000
    request_sources :=
      [0, 1, 2, 5, 6, 7, 8, 10, 11, 12, 13, 21, 30, 31, 33, 34, 55, 60, 70, 71, 78, 79]
    indeterminate := fun _ _ => 0xBEEF }

/-- A callback table in which every callback returns without touching the DMA state. -/
def idleCallbacks : CallbackTable := fun _ _ _ s => s

/-- The state in which channel 2 holds callback 7 and nothing else was touched since start-up. -/
def sampleRegistered : Machine :=
  { Machine.initial with DMA_Data := upd Machine.initial.DMA_Data 2 7 }

/-- The start-up state with channel 0 configured in one-shot mode and the idle counter at
`counter`. -/
def sampleOneShot (counter : Int) : Machine :=
  { Machine.initial with
    DMA := upd Machine.initial.DMA 0 { DmaRegs.reset with MODE := DMA_OPERATING_ONE_SHOT }
    clock_idle_disabled := counter }

/-- The start-up state with channel 0 configured in continuous-ping-pong mode. -/
def sampleContinuous : Machine :=
  { Machine.initial with
    DMA := upd Machine.initial.DMA 0
      { DmaRegs.reset with MODE := DMA_OPERATING_CONTINUOUS_PING_PONG } }

/-- A call sequence: configure channel 0 in one-shot mode, then enable it twice. -/
def sampleDoubleEnable : List DmaCall :=
  [.init_channel 0 0 1 0 0 0 0 DMA_OPERATING_ONE_SHOT 0x4000 0 0x220 16 0,
   .enable_channel 0, .enable_channel 0]

/-- A call sequence: configure channels 0 and 3 in one-shot modes, enable both, start a transfer
on channel 0, disable channel 0. -/
def samplePairedCalls : List DmaCall :=
  [.init_channel 0 0 1 0 0 0 0 DMA_OPERATING_ONE_SHOT 0x4000 0 0x220 16 0,
   .init_channel 3 0 1 0 0 0 0 DMA_OPERATING_ONE_SHOT_PING_PONG 0x4100 0x4200 0x220 16 7,
   .enable_channel 0, .enable_channel 3, .set_priority 3 5, .start_transfer 0,
   .disable_channel 0]

/-- A call sequence: configure channel 0 in one-shot mode, then disable it without having
enabled it. -/
def sampleDisableFirst : List DmaCall :=
  [.init_channel 0 0 1 0 0 0 0 DMA_OPERATING_ONE_SHOT 0x4000 0 0x220 16 0,
   .disable_channel 0]

/-- A callback table in which every callback disables the channel it is called for. -/
def disablingCallbacks : CallbackTable := fun _ channel _ s => (dma_disable_channel channel s).1

/-- A call sequence: register callback 9 on channel 0, then callback 7 on channel 5. -/
def sampleRegisterTwo : List DmaCall :=
  [.init_channel 0 0 1 0 0 0 0 DMA_OPERATING_CONTINUOUS 0x4000 0 0x220 16 9,
   .init_channel 5 0 1 0 0 0 0 DMA_OPERATING_CONTINUOUS 0x4100 0 0x220 16 7]

/-- A call sequence: register callback 7 on channel 5. -/
def sampleRegisterFive : List DmaCall :=
  [.init_channel 5 0 1 0 0 0 0 DMA_OPERATING_CONTINUOUS 0x4100 0 0x220 16 7]

/-- The state after configuring channel 0 in one-shot-ping-pong mode with callback 7, enabling it
and serving one completion interrupt with an idle callback. -/
def sampleEnabledSecondHalf : Machine :=
  match DMAxInterrupt idleCallbacks 0
      (run_dma_calls samplePlatform
        [.init_channel 0 0 1 0 0 0 0 DMA_OPERATING_ONE_SHOT_PING_PONG 0x4000 0x4100 0x220 16 7,
         .enable_channel 0] Machine.initial) with
  | some r => r.1
  | none => Machine.initial

/-- Sample values for the enumerators of `pwm.h`. -/
def samplePwmHeader : PwmHeader :=
  { PWM_1 := 0, PWM_2 := 1, PWM_3 := 2, PWM_4 := 3
    PWM_ONE_DEFAULT_LOW := 0, PWM_BOTH_DEFAULT_LOW := 1
    PWM_ONE_DEFAULT_HIGH := 2, PWM_BOTH_DEFAULT_HIGH := 3 }

/-- A PWM state with updates enabled (`UDIS = 0`) and every other field zero. -/
def samplePwm : PwmState :=
  { UDIS := 0, PENL := fun _ => 0, PENH := fun _ => 0, PMOD := fun _ => 0, POVDL := fun _ => 0,
    POVDH := fun _ => 0, POUTL := fun _ => 0, POUTH := fun _ => 0, PDC := fun _ => 0,
    mode := fun _ => 0, period := 1000 }

/-! ## Lemmas -/

@[simp] theorem upd_same {α : Type} (f : Nat → α) (i : Nat) (v : α) : upd f i v i = v := by
  simp [upd]

theorem upd_other {α : Type} (f : Nat → α) (i j : Nat) (v : α) (h : j ≠ i) :
    upd f i v j = f j := by
  simp [upd, h]

theorem flip_parity (j : Nat) : ((j % 2) ^^^ 1) % 256 = (j + 1) % 2 := by
  rcases Nat.mod_two_eq_zero_or_one j with h | h
  · have h2 : (j + 1) % 2 = 1 := by omega
    rw [h, h2]; rfl
  · have h2 : (j + 1) % 2 = 0 := by omega
    rw [h, h2]; rfl

/-- One completion interrupt on a channel whose slot holds a non-null callback that leaves the
slot and the half-indicator of the channel alone. -/
theorem DMAxInterrupt_step (code : CallbackTable) (c cb : Nat) (hcb : cb ≠ 0)
    (hframe : ∀ ch b s, (code cb ch b s).pingpong_dma c = s.pingpong_dma c ∧
      (code cb ch b s).DMA_Data c = s.DMA_Data c)
    (s : Machine) (hreg : s.DMA_Data c = cb) :
    ∃ s1, DMAxInterrupt code c s
        = some (s1, ⟨cb, DMA_CHANNEL c, decide (s.pingpong_dma c = 0)⟩) ∧
      s1.DMA_Data c = cb ∧ s1.pingpong_dma c = (s.pingpong_dma c ^^^ 1) % 256 ∧
      ((∀ ch b s, ((code cb ch b s).DMA c).MODE = (s.DMA c).MODE ∧
          (code cb ch b s).clock_idle_disabled = s.clock_idle_disabled) →
        (s1.DMA c).MODE = (s.DMA c).MODE ∧ s1.clock_idle_disabled = s.clock_idle_disabled) := by
  simp only [DMAxInterrupt, hreg, if_neg hcb]
  refine ⟨_, rfl, ?_, ?_, ?_⟩
  · simp [(hframe _ _ _).2, hreg]
  · simp [(hframe _ _ _).1]
  · intro h
    simp [(h _ _ _).1, (h _ _ _).2]

/-- The trace of `n` completion interrupts in a row, started with the half-indicator at `j % 2`. -/
theorem DMAxInterrupts_trace (code : CallbackTable) (c cb : Nat) (hcb : cb ≠ 0)
    (hframe : ∀ ch b s, (code cb ch b s).pingpong_dma c = s.pingpong_dma c ∧
      (code cb ch b s).DMA_Data c = s.DMA_Data c) :
    ∀ (n j : Nat) (s : Machine), s.DMA_Data c = cb → s.pingpong_dma c = j % 2 →
      ∃ s1, DMAxInterrupts code c n s
          = some (s1, (List.range n).map
              (fun k => (⟨cb, DMA_CHANNEL c, decide ((j + k) % 2 = 0)⟩ : Invocation))) ∧
        s1.DMA_Data c = cb ∧ s1.pingpong_dma c = (j + n) % 2 ∧
        ((∀ ch b s, ((code cb ch b s).DMA c).MODE = (s.DMA c).MODE ∧
            (code cb ch b s).clock_idle_disabled = s.clock_idle_disabled) →
          (s1.DMA c).MODE = (s.DMA c).MODE ∧
            s1.clock_idle_disabled = s.clock_idle_disabled) := by
  intro n
  induction n with
  | zero =>
    intro j s hreg hpp
    exact ⟨s, rfl, hreg, by simpa using hpp, fun _ => ⟨rfl, rfl⟩⟩
  | succ n ih =>
    intro j s hreg hpp
    obtain ⟨s1, hstep, hreg1, hpp1, hk1⟩ := DMAxInterrupt_step code c cb hcb hframe s hreg
    rw [hpp, flip_parity] at hpp1
    obtain ⟨s2, hrest, hreg2, hpp2, hk2⟩ := ih (j + 1) s1 hreg1 hpp1
    refine ⟨s2, ?_, hreg2, by rw [hpp2]; congr 1; omega, ?_⟩
    · simp only [DMAxInterrupts, hstep, hrest, List.range_succ_eq_map, List.map_cons,
        List.map_map]
      have e1 : decide (s.pingpong_dma c = 0) = decide ((j + 0) % 2 = 0) := by simp [hpp]
      have e2 :
          ((fun k => (⟨cb, DMA_CHANNEL c, decide ((j + k) % 2 = 0)⟩ : Invocation)) ∘ Nat.succ)
            = (fun k => (⟨cb, DMA_CHANNEL c, decide ((j + 1 + k) % 2 = 0)⟩ : Invocation)) := by
        funext k
        simp only [Function.comp, Nat.succ_eq_add_one]
        congr 3
        omega
      rw [e1, e2]
    · intro h
      exact ⟨(hk2 h).1.trans (hk1 h).1, (hk2 h).2.trans (hk1 h).2⟩

theorem get_offset_inside (p : Platform) (a size : Nat) (hbase : p.DMA_BASE + 8192 < 65536)
    (ha : a ≠ 0) (hge : p.DMA_BASE ≤ a) (hfit : (a - p.DMA_BASE) + size ≤ 8192) :
    get_offset p a size = (a - p.DMA_BASE, []) := by
  have hoff : (a % 65536 + (65536 - p.DMA_BASE % 65536)) % 65536 = a - p.DMA_BASE := by omega
  have hcond : ¬ (a - p.DMA_BASE > a % 65536 ∨
      (a - p.DMA_BASE + size) % 65536 > (p.DMA_BASE + 0x2000) % 65536) := by omega
  simp only [get_offset, if_neg ha, hoff, if_neg hcond]

theorem get_offset_null (p : Platform) (size : Nat) : get_offset p 0 size = (0, []) := by
  simp [get_offset]

theorem get_offset_used_or_not (p : Platform) (a size : Nat) (hbase : p.DMA_BASE + 8192 < 65536)
    (h : a = 0 ∨ (p.DMA_BASE ≤ a ∧ (a - p.DMA_BASE) + size ≤ 8192)) :
    get_offset p a size = (if a = 0 then 0 else a - p.DMA_BASE, []) := by
  by_cases ha : a = 0
  · subst ha; simp [get_offset_null]
  · rcases h with h | h
    · exact absurd h ha
    · rw [get_offset_inside p a size hbase ha h.1 h.2, if_neg ha]

theorem ERROR_CHECK_RANGE_false (v lo hi : Int) (h : lo ≤ v ∧ v ≤ hi) :
    ERROR_CHECK_RANGE v lo hi = false := by
  simp only [ERROR_CHECK_RANGE, Bool.or_eq_false_iff, decide_eq_false_iff_not]
  omega

theorem ERROR_CHECK_RANGE_true (v lo hi : Int) (h : ¬ (lo ≤ v ∧ v ≤ hi)) :
    ERROR_CHECK_RANGE v lo hi = true := by
  simp only [ERROR_CHECK_RANGE, Bool.or_eq_true, decide_eq_true_eq]
  omega

theorem buffer_size_exact (n : Nat) (ds : Int) (hds : 0 ≤ ds ∧ ds ≤ 1)
    (h : n * unit_size ds < 65536) : buffer_size n ds = n * unit_size ds := by
  unfold buffer_size unit_size at *
  obtain ⟨k, hk⟩ : ∃ k : Nat, 2 - ds = (k : Int) := ⟨(2 - ds).toNat, by omega⟩
  rw [hk] at h ⊢
  simp only [Int.toNat_ofNat] at h ⊢
  have : ((n : Int) * (k : Int)) = ((n * k : Nat) : Int) := by push_cast; rfl
  rw [this]
  omega

/-- With legal enumerated arguments `dma_init_channel` reaches the block of its channel. -/
theorem dma_init_channel_dispatch (p : Platform) (c : Nat) (hc : c < 8)
    (request_source data_size transfer_dir interrupt_pos null_write addressing_mode
      operating_mode : Int)
    (a b peripheral_address transfer_count callback : Nat) (s : Machine)
    (hsrc : request_source ∈ p.request_sources)
    (hds : 0 ≤ data_size ∧ data_size ≤ 1) (hdir : 0 ≤ transfer_dir ∧ transfer_dir ≤ 1)
    (hpos : 0 ≤ interrupt_pos ∧ interrupt_pos ≤ 1) (hnw : 0 ≤ null_write ∧ null_write ≤ 1)
    (ham : 0 ≤ addressing_mode ∧ addressing_mode ≤ 2)
    (hom : 0 ≤ operating_mode ∧ operating_mode ≤ 3) :
    dma_init_channel p (DMA_CHANNEL c) request_source data_size transfer_dir interrupt_pos
        null_write addressing_mode operating_mode a b peripheral_address transfer_count callback s
      = dma_init_channel_case p c (callback_slot c) request_source data_size transfer_dir
          interrupt_pos null_write addressing_mode operating_mode a b peripheral_address
          transfer_count callback s := by
  simp only [dma_init_channel, not_not.mpr hsrc, if_false, ERROR_CHECK_RANGE_false _ _ _ hds,
    ERROR_CHECK_RANGE_false _ _ _ hdir, ERROR_CHECK_RANGE_false _ _ _ hpos,
    ERROR_CHECK_RANGE_false _ _ _ hnw, ERROR_CHECK_RANGE_false _ _ _ ham,
    ERROR_CHECK_RANGE_false _ _ _ hom, Bool.false_eq_true]
  interval_cases c <;> simp [DMA_CHANNEL, callback_slot]

theorem get_offset_below (p : Platform) (a size : Nat) (ha : a ≠ 0) (hlt : a < p.DMA_BASE)
    (hbase : p.DMA_BASE < 65536) :
    get_offset p a size
      = (p.indeterminate a size, [⟨.DMA_ERROR_INVALID_ADDRESS, (a : Int)⟩]) := by
  have hcond : (a % 65536 + (65536 - p.DMA_BASE % 65536)) % 65536 > a % 65536 ∨
      ((a % 65536 + (65536 - p.DMA_BASE % 65536)) % 65536 + size) % 65536
        > (p.DMA_BASE + 0x2000) % 65536 := Or.inl (by omega)
  simp only [get_offset, if_neg ha, if_pos hcond, error_report]

theorem dma_enable_channel_valid (c : Nat) (hc : c < 8) (s : Machine) :
    dma_enable_channel (DMA_CHANNEL c) s = (dma_enable_channel_case c s, []) := by
  interval_cases c <;> simp [dma_enable_channel, DMA_CHANNEL]

theorem dma_disable_channel_valid (c : Nat) (hc : c < 8) (s : Machine) :
    dma_disable_channel (DMA_CHANNEL c) s = (dma_disable_channel_case c s, []) := by
  interval_cases c <;> simp [dma_disable_channel, DMA_CHANNEL]

theorem dma_start_transfer_valid (c : Nat) (hc : c < 8) (s : Machine) :
    dma_start_transfer (DMA_CHANNEL c) s = (dma_start_transfer_case c s, []) := by
  interval_cases c <;> simp [dma_start_transfer, DMA_CHANNEL]

theorem dma_set_priority_valid (c : Nat) (hc : c < 8) (prio : Int) (hp : 1 ≤ prio ∧ prio ≤ 7)
    (s : Machine) :
    dma_set_priority (DMA_CHANNEL c) prio s = (dma_set_priority_case c prio s, []) := by
  simp only [dma_set_priority, ERROR_CHECK_RANGE_false _ _ _ hp, Bool.false_eq_true, if_false]
  interval_cases c <;> simp [DMA_CHANNEL]

/-- A channel index outside `0..7` is none of the eight channel constants. -/
theorem invalid_channel_ne (channel : Int) (h : channel < 0 ∨ 7 < channel) :
    channel ≠ DMA_CHANNEL 0 ∧ channel ≠ DMA_CHANNEL 1 ∧ channel ≠ DMA_CHANNEL 2 ∧
      channel ≠ DMA_CHANNEL 3 ∧ channel ≠ DMA_CHANNEL 4 ∧ channel ≠ DMA_CHANNEL 5 ∧
      channel ≠ DMA_CHANNEL 6 ∧ channel ≠ DMA_CHANNEL 7 := by
  simp only [DMA_CHANNEL, ne_eq]
  omega

theorem dma_enable_channel_case_one_shot (c : Nat) (s : Machine)
    (hm : (s.DMA c).MODE = DMA_OPERATING_ONE_SHOT ∨
      (s.DMA c).MODE = DMA_OPERATING_ONE_SHOT_PING_PONG) :
    dma_enable_channel_case c s
      = clock_disable_idle { s with DMA := upd s.DMA c { s.DMA c with CHEN := 1 } } := by
  simp only [dma_enable_channel_case, upd_same, hm, if_true]

theorem dma_enable_channel_case_continuous (c : Nat) (s : Machine)
    (hm : ¬ ((s.DMA c).MODE = DMA_OPERATING_ONE_SHOT ∨
      (s.DMA c).MODE = DMA_OPERATING_ONE_SHOT_PING_PONG)) :
    dma_enable_channel_case c s
      = { s with DMA := upd s.DMA c { s.DMA c with CHEN := 1 } } := by
  simp only [dma_enable_channel_case, upd_same, hm, if_false]

theorem dma_disable_channel_case_one_shot (c : Nat) (s : Machine)
    (hm : (s.DMA c).MODE = DMA_OPERATING_ONE_SHOT ∨
      (s.DMA c).MODE = DMA_OPERATING_ONE_SHOT_PING_PONG) :
    dma_disable_channel_case c s
      = clock_enable_idle { s with
          DMA := upd s.DMA c { s.DMA c with CHEN := 0 }
          pingpong_dma := upd s.pingpong_dma c 0 } := by
  simp only [dma_disable_channel_case, upd_same, hm, if_true]

theorem dma_disable_channel_case_continuous (c : Nat) (s : Machine)
    (hm : ¬ ((s.DMA c).MODE = DMA_OPERATING_ONE_SHOT ∨
      (s.DMA c).MODE = DMA_OPERATING_ONE_SHOT_PING_PONG)) :
    dma_disable_channel_case c s
      = { s with
          DMA := upd s.DMA c { s.DMA c with CHEN := 0 }
          pingpong_dma := upd s.pingpong_dma c 0 } := by
  simp only [dma_disable_channel_case, upd_same, hm, if_false]

theorem clock_disable_idle_inside (s : Machine)
    (h : 1000 ≤ s.clock_idle_disabled ∧ s.clock_idle_disabled ≤ 2000) :
    clock_disable_idle s = { s with clock_idle_disabled := s.clock_idle_disabled + 1 } := by
  have h2 : s.clock_idle_disabled ≤ 2000 ∧ s.clock_idle_disabled ≥ 1000 := ⟨h.2, h.1⟩
  simp only [clock_disable_idle, if_pos h2, atomic_add]

theorem clock_enable_idle_inside (s : Machine)
    (h : 1000 ≤ s.clock_idle_disabled ∧ s.clock_idle_disabled ≤ 2000) :
    clock_enable_idle s = { s with clock_idle_disabled := s.clock_idle_disabled - 1 } := by
  have h2 : s.clock_idle_disabled ≤ 2000 ∧ s.clock_idle_disabled ≥ 1000 := ⟨h.2, h.1⟩
  simp only [clock_enable_idle, if_pos h2, atomic_add]
  rfl

theorem clock_disable_idle_outside (s : Machine)
    (h : s.clock_idle_disabled < 1000 ∨ 2000 < s.clock_idle_disabled) :
    clock_disable_idle s = s := by
  have h2 : ¬ (s.clock_idle_disabled ≤ 2000 ∧ s.clock_idle_disabled ≥ 1000) := by omega
  simp only [clock_disable_idle, if_neg h2]

theorem clock_enable_idle_outside (s : Machine)
    (h : s.clock_idle_disabled < 1000 ∨ 2000 < s.clock_idle_disabled) :
    clock_enable_idle s = s := by
  have h2 : ¬ (s.clock_idle_disabled ≤ 2000 ∧ s.clock_idle_disabled ≥ 1000) := by omega
  simp only [clock_enable_idle, if_neg h2]

theorem dma_enable_channel_case_inside (c : Nat) (s : Machine)
    (hm : (s.DMA c).MODE = DMA_OPERATING_ONE_SHOT ∨
      (s.DMA c).MODE = DMA_OPERATING_ONE_SHOT_PING_PONG)
    (hn : 1000 ≤ s.clock_idle_disabled ∧ s.clock_idle_disabled ≤ 2000) :
    dma_enable_channel_case c s
      = { s with
          DMA := upd s.DMA c { s.DMA c with CHEN := 1 }
          clock_idle_disabled := s.clock_idle_disabled + 1 } := by
  rw [dma_enable_channel_case_one_shot c s hm]
  exact clock_disable_idle_inside { s with DMA := upd s.DMA c { s.DMA c with CHEN := 1 } } hn

theorem dma_disable_channel_case_inside (c : Nat) (s : Machine)
    (hm : (s.DMA c).MODE = DMA_OPERATING_ONE_SHOT ∨
      (s.DMA c).MODE = DMA_OPERATING_ONE_SHOT_PING_PONG)
    (hn : 1000 ≤ s.clock_idle_disabled ∧ s.clock_idle_disabled ≤ 2000) :
    dma_disable_channel_case c s
      = { s with
          DMA := upd s.DMA c { s.DMA c with CHEN := 0 }
          pingpong_dma := upd s.pingpong_dma c 0
          clock_idle_disabled := s.clock_idle_disabled - 1 } := by
  rw [dma_disable_channel_case_one_shot c s hm]
  exact clock_enable_idle_inside
    { s with
      DMA := upd s.DMA c { s.DMA c with CHEN := 0 }
      pingpong_dma := upd s.pingpong_dma c 0 } hn


/-- A call of `dma_init_channel` either aborts on an enumerated argument, with one report and
the state unchanged, or has legal enumerated arguments. -/
theorem dma_init_channel_abort_or_legal (p : Platform)
    (channel request_source data_size transfer_dir interrupt_pos null_write addressing_mode
      operating_mode : Int)
    (a b peripheral_address transfer_count callback : Nat) (s : Machine) :
    (∃ e, dma_init_channel p channel request_source data_size transfer_dir interrupt_pos
      null_write addressing_mode operating_mode a b peripheral_address transfer_count
      callback s = (s, [e])) ∨
    (request_source ∈ p.request_sources ∧ (0 ≤ data_size ∧ data_size ≤ 1) ∧
      (0 ≤ transfer_dir ∧ transfer_dir ≤ 1) ∧ (0 ≤ interrupt_pos ∧ interrupt_pos ≤ 1) ∧
      (0 ≤ null_write ∧ null_write ≤ 1) ∧ (0 ≤ addressing_mode ∧ addressing_mode ≤ 2) ∧
      (0 ≤ operating_mode ∧ operating_mode ≤ 3)) := by
  by_cases h1 : request_source ∈ p.request_sources
  swap
  · refine Or.inl ⟨⟨.DMA_ERROR_INVALID_REQUEST_SOURCE, request_source⟩, ?_⟩
    simp only [dma_init_channel, if_pos h1, error_report]
  by_cases h2 : 0 ≤ data_size ∧ data_size ≤ 1
  swap
  · refine Or.inl ⟨⟨.DMA_ERROR_INVALID_DATA_SIZE, data_size⟩, ?_⟩
    simp only [dma_init_channel, not_not.mpr h1, if_false, ERROR_CHECK_RANGE_true _ _ _ h2,
      if_true, error_report]
  by_cases h3 : 0 ≤ transfer_dir ∧ transfer_dir ≤ 1
  swap
  · refine Or.inl ⟨⟨.DMA_ERROR_INVALID_TRANSFER_DIRECTION, transfer_dir⟩, ?_⟩
    simp only [dma_init_channel, not_not.mpr h1, if_false, ERROR_CHECK_RANGE_false _ _ _ h2,
      ERROR_CHECK_RANGE_true _ _ _ h3, if_true, Bool.false_eq_true, error_report]
  by_cases h4 : 0 ≤ interrupt_pos ∧ interrupt_pos ≤ 1
  swap
  · refine Or.inl ⟨⟨.DMA_ERROR_INVALID_INTERRUPT_POSITION, interrupt_pos⟩, ?_⟩
    simp only [dma_init_channel, not_not.mpr h1, if_false, ERROR_CHECK_RANGE_false _ _ _ h2,
      ERROR_CHECK_RANGE_false _ _ _ h3, ERROR_CHECK_RANGE_true _ _ _ h4, if_true,
      Bool.false_eq_true, error_report]
  by_cases h5 : 0 ≤ null_write ∧ null_write ≤ 1
  swap
  · refine Or.inl ⟨⟨.DMA_ERROR_INVALID_WRITE_NULL_MODE, null_write⟩, ?_⟩
    simp only [dma_init_channel, not_not.mpr h1, if_false, ERROR_CHECK_RANGE_false _ _ _ h2,
      ERROR_CHECK_RANGE_false _ _ _ h3, ERROR_CHECK_RANGE_false _ _ _ h4,
      ERROR_CHECK_RANGE_true _ _ _ h5, if_true, Bool.false_eq_true, error_report]
  by_cases h6 : 0 ≤ addressing_mode ∧ addressing_mode ≤ 2
  swap
  · refine Or.inl ⟨⟨.DMA_ERROR_INVALID_ADDRESSING_MODE, addressing_mode⟩, ?_⟩
    simp only [dma_init_channel, not_not.mpr h1, if_false, ERROR_CHECK_RANGE_false _ _ _ h2,
      ERROR_CHECK_RANGE_false _ _ _ h3, ERROR_CHECK_RANGE_false _ _ _ h4,
      ERROR_CHECK_RANGE_false _ _ _ h5, ERROR_CHECK_RANGE_true _ _ _ h6, if_true,
      Bool.false_eq_true, error_report]
  by_cases h7 : 0 ≤ operating_mode ∧ operating_mode ≤ 3
  swap
  · refine Or.inl ⟨⟨.DMA_ERROR_INVALID_OPERATING_MODE, operating_mode⟩, ?_⟩
    simp only [dma_init_channel, not_not.mpr h1, if_false, ERROR_CHECK_RANGE_false _ _ _ h2,
      ERROR_CHECK_RANGE_false _ _ _ h3, ERROR_CHECK_RANGE_false _ _ _ h4,
      ERROR_CHECK_RANGE_false _ _ _ h5, ERROR_CHECK_RANGE_false _ _ _ h6,
      ERROR_CHECK_RANGE_true _ _ _ h7, if_true, Bool.false_eq_true, error_report]
  exact Or.inr ⟨h1, h2, h3, h4, h5, h6, h7⟩

/-- A call of `dma_init_channel` that reports nothing had legal enumerated arguments. -/
theorem dma_init_channel_quiet_legal (p : Platform)
    (channel request_source data_size transfer_dir interrupt_pos null_write addressing_mode
      operating_mode : Int)
    (a b peripheral_address transfer_count callback : Nat) (s : Machine)
    (h : (dma_init_channel p channel request_source data_size transfer_dir interrupt_pos
      null_write addressing_mode operating_mode a b peripheral_address transfer_count
      callback s).2 = []) :
    request_source ∈ p.request_sources ∧ (0 ≤ data_size ∧ data_size ≤ 1) ∧
      (0 ≤ transfer_dir ∧ transfer_dir ≤ 1) ∧ (0 ≤ interrupt_pos ∧ interrupt_pos ≤ 1) ∧
      (0 ≤ null_write ∧ null_write ≤ 1) ∧ (0 ≤ addressing_mode ∧ addressing_mode ≤ 2) ∧
      (0 ≤ operating_mode ∧ operating_mode ≤ 3) := by
  rcases dma_init_channel_abort_or_legal p channel request_source data_size transfer_dir
    interrupt_pos null_write addressing_mode operating_mode a b peripheral_address
    transfer_count callback s with ⟨e, he⟩ | hl
  · rw [he] at h
    simp at h
  · exact hl

/-- Whatever its arguments, `dma_init_channel` on a channel index outside `0..7` returns the
state unchanged with exactly one report. -/
theorem dma_init_channel_invalid_channel (p : Platform)
    (channel request_source data_size transfer_dir interrupt_pos null_write addressing_mode
      operating_mode : Int)
    (a b peripheral_address transfer_count callback : Nat) (s : Machine)
    (h : channel < 0 ∨ 7 < channel) :
    ∃ e, dma_init_channel p channel request_source data_size transfer_dir interrupt_pos
      null_write addressing_mode operating_mode a b peripheral_address transfer_count
      callback s = (s, [e]) := by
  obtain ⟨h0, h1, h2, h3, h4, h5, h6, h7⟩ := invalid_channel_ne channel h
  simp only [dma_init_channel, if_neg h0, if_neg h1, if_neg h2, if_neg h3, if_neg h4,
    if_neg h5, if_neg h6, if_neg h7, error_report]
  split_ifs <;> exact ⟨_, rfl⟩

/-- Both calls of the idle inhibition interface keep the counter in `[999, 2001]`. -/
theorem ClockCall.run_bounds (call : ClockCall) (s : Machine)
    (h : 999 ≤ s.clock_idle_disabled ∧ s.clock_idle_disabled ≤ 2001) :
    999 ≤ (call.run s).clock_idle_disabled ∧ (call.run s).clock_idle_disabled ≤ 2001 := by
  by_cases hin : 1000 ≤ s.clock_idle_disabled ∧ s.clock_idle_disabled ≤ 2000
  · cases call
    · simp only [ClockCall.run, clock_disable_idle_inside s hin]; omega
    · simp only [ClockCall.run, clock_enable_idle_inside s hin]; omega
  · have hout : s.clock_idle_disabled < 1000 ∨ 2000 < s.clock_idle_disabled := by omega
    cases call
    · simp only [ClockCall.run, clock_disable_idle_outside s hout]; exact h
    · simp only [ClockCall.run, clock_enable_idle_outside s hout]; exact h

theorem run_clock_calls_bounds (calls : List ClockCall) :
    ∀ s : Machine, 999 ≤ s.clock_idle_disabled ∧ s.clock_idle_disabled ≤ 2001 →
      999 ≤ (run_clock_calls calls s).clock_idle_disabled ∧
        (run_clock_calls calls s).clock_idle_disabled ≤ 2001 := by
  induction calls with
  | nil => intro s h; exact h
  | cons call rest ih => intro s h; exact ih (call.run s) (ClockCall.run_bounds call s h)

/-- Changing a predicate at one member of a duplicate-free list changes the number of members
that satisfy it by the change at that member. -/
theorem filter_length_update (P Q : Nat → Bool) (c : Nat) (hagree : ∀ j, j ≠ c → Q j = P j) :
    ∀ l : List Nat, l.Nodup → c ∈ l →
      (l.filter Q).length + (if P c then 1 else 0)
        = (l.filter P).length + (if Q c then 1 else 0) := by
  intro l
  induction l with
  | nil => intro _ hc; simp at hc
  | cons x xs ih =>
    intro hnd hc
    rw [List.nodup_cons] at hnd
    by_cases hx : x = c
    · subst hx
      have hsame : xs.filter Q = xs.filter P := by
        apply List.filter_congr
        intro j hj
        exact hagree j (fun e => hnd.1 (e ▸ hj))
      simp only [List.filter_cons, hsame]
      cases hP : P x <;> cases hQ : Q x <;> simp
    · have hc2 : c ∈ xs := by
        rcases List.mem_cons.mp hc with h | h
        · exact absurd h.symm hx
        · exact h
      have := ih hnd.2 hc2
      simp only [List.filter_cons, hagree x hx]
      cases hP : P x <;> simp <;> omega

/-- Writing the registers of one channel `c` in `0..7` changes the number of enabled one-shot
channels by the change at `c`. -/
theorem one_shot_enabled_count_upd (s t : Machine) (c : Nat) (hc : c < 8) (r : DmaRegs)
    (ht : t.DMA = upd s.DMA c r) :
    one_shot_enabled_count t + (if one_shot_enabled (s.DMA c) then 1 else 0)
      = one_shot_enabled_count s + (if one_shot_enabled r then 1 else 0) := by
  have h := filter_length_update (fun j => one_shot_enabled (s.DMA j))
    (fun j => one_shot_enabled (t.DMA j)) c
    (fun j hj => by simp only [ht, upd_other _ _ _ _ hj])
    (List.range 8) (List.nodup_range 8) (List.mem_range.mpr hc)
  simp only [ht, upd_same] at h
  simp only [one_shot_enabled_count, ht]
  exact h

theorem one_shot_enabled_count_le (s : Machine) : one_shot_enabled_count s ≤ 8 := by
  unfold one_shot_enabled_count
  calc ((List.range 8).filter (fun c => one_shot_enabled (s.DMA c))).length
      ≤ (List.range 8).length := List.length_filter_le _ _
    _ = 8 := List.length_range 8

theorem one_shot_enabled_count_disabled (s : Machine) (h : ∀ c, c < 8 → (s.DMA c).CHEN = 0) :
    one_shot_enabled_count s = 0 := by
  unfold one_shot_enabled_count
  rw [List.length_eq_zero, List.filter_eq_nil_iff]
  intro c hc
  simp [one_shot_enabled, h c (List.mem_range.mp hc)]

/-- A valid channel index is the constant of the channel it names. -/
theorem valid_channel_eq (channel : Int) (h0 : 0 ≤ channel) (h7 : channel ≤ 7) :
    channel.toNat < 8 ∧ channel = DMA_CHANNEL channel.toNat := by
  unfold DMA_CHANNEL
  omega


/-- The counter invariant: the idle counter is 1000 plus the number of enabled one-shot
channels. It is kept by every call that respects the enable bit of its channel. -/
theorem DmaCall.run_invariant (p : Platform) (call : DmaCall) (s : Machine)
    (hinv : s.clock_idle_disabled = 1000 + (one_shot_enabled_count s : Int))
    (hp : call.paired s = true) :
    (call.run p s).clock_idle_disabled
      = 1000 + (one_shot_enabled_count (call.run p s) : Int) := by
  have hle := one_shot_enabled_count_le s
  have hin : 1000 ≤ s.clock_idle_disabled ∧ s.clock_idle_disabled ≤ 2000 := by omega
  simp only [DmaCall.paired, Bool.and_eq_true, decide_eq_true_eq] at hp
  obtain ⟨⟨h0, h7⟩, hbit⟩ := hp
  obtain ⟨hc, hch⟩ := valid_channel_eq call.channel h0 h7
  cases call with
  | init_channel channel request_source data_size transfer_dir interrupt_pos null_write
      addressing_mode operating_mode a b peripheral_address transfer_count callback =>
    simp only [DmaCall.channel] at hc hch
    simp only [decide_eq_true_eq] at hbit
    simp only [DmaCall.run]
    rcases dma_init_channel_abort_or_legal p channel request_source data_size transfer_dir
      interrupt_pos null_write addressing_mode operating_mode a b peripheral_address
      transfer_count callback s with ⟨e, he⟩ | ⟨k1, k2, k3, k4, k5, k6, k7⟩
    · rw [he]; exact hinv
    · rw [hch, dma_init_channel_dispatch p _ hc _ _ _ _ _ _ _ _ _ _ _ _ s k1 k2 k3 k4 k5 k6 k7]
      have hcount := one_shot_enabled_count_upd s
        (dma_init_channel_case p channel.toNat (callback_slot channel.toNat) request_source
          data_size transfer_dir interrupt_pos null_write addressing_mode operating_mode a b
          peripheral_address transfer_count callback s).1 channel.toNat hc _ rfl
      simp only [one_shot_enabled, hbit] at hcount
      simp at hcount
      rw [hcount]
      exact hinv
  | enable_channel channel =>
    simp only [DmaCall.channel] at hc hch
    simp only [decide_eq_true_eq] at hbit
    simp only [DmaCall.run]
    rw [hch, dma_enable_channel_valid _ hc]
    by_cases hm : (s.DMA channel.toNat).MODE = DMA_OPERATING_ONE_SHOT ∨
        (s.DMA channel.toNat).MODE = DMA_OPERATING_ONE_SHOT_PING_PONG
    · rw [dma_enable_channel_case_inside _ s hm hin]
      have hcount := one_shot_enabled_count_upd s
        { s with
          DMA := upd s.DMA channel.toNat { s.DMA channel.toNat with CHEN := 1 }
          clock_idle_disabled := s.clock_idle_disabled + 1 } channel.toNat hc _ rfl
      simp only [one_shot_enabled, hbit] at hcount
      simp [hm] at hcount
      simp only [hcount]
      push_cast
      omega
    · rw [dma_enable_channel_case_continuous _ s hm]
      have hcount := one_shot_enabled_count_upd s
        { s with DMA := upd s.DMA channel.toNat { s.DMA channel.toNat with CHEN := 1 } }
        channel.toNat hc _ rfl
      simp only [one_shot_enabled, hbit] at hcount
      simp [hm] at hcount
      simp only [hcount]
      exact hinv
  | disable_channel channel =>
    simp only [DmaCall.channel] at hc hch
    simp only [decide_eq_true_eq] at hbit
    simp only [DmaCall.run]
    rw [hch, dma_disable_channel_valid _ hc]
    by_cases hm : (s.DMA channel.toNat).MODE = DMA_OPERATING_ONE_SHOT ∨
        (s.DMA channel.toNat).MODE = DMA_OPERATING_ONE_SHOT_PING_PONG
    · rw [dma_disable_channel_case_inside _ s hm hin]
      have hcount := one_shot_enabled_count_upd s
        { s with
          DMA := upd s.DMA channel.toNat { s.DMA channel.toNat with CHEN := 0 }
          pingpong_dma := upd s.pingpong_dma channel.toNat 0
          clock_idle_disabled := s.clock_idle_disabled - 1 } channel.toNat hc _ rfl
      simp only [one_shot_enabled, hbit] at hcount
      simp [hm] at hcount
      simp only []
      omega
    · rw [dma_disable_channel_case_continuous _ s hm]
      have hcount := one_shot_enabled_count_upd s
        { s with
          DMA := upd s.DMA channel.toNat { s.DMA channel.toNat with CHEN := 0 }
          pingpong_dma := upd s.pingpong_dma channel.toNat 0 } channel.toNat hc _ rfl
      simp only [one_shot_enabled, hbit] at hcount
      simp [hm] at hcount
      simp only [hcount]
      exact hinv
  | start_transfer channel =>
    simp only [DmaCall.channel] at hc hch
    simp only [DmaCall.run]
    rw [hch, dma_start_transfer_valid _ hc]
    have hcount := one_shot_enabled_count_upd s (dma_start_transfer_case channel.toNat s)
      channel.toNat hc _ rfl
    simp only [one_shot_enabled] at hcount
    rw [Nat.add_right_cancel hcount]
    exact hinv
  | set_priority channel prio =>
    simp only [DmaCall.channel] at hc hch
    simp only [DmaCall.run]
    by_cases hprio : 1 ≤ prio ∧ prio ≤ 7
    · rw [hch, dma_set_priority_valid _ hc prio hprio]
      have hcount := one_shot_enabled_count_upd s (dma_set_priority_case channel.toNat prio s)
        channel.toNat hc _ rfl
      simp only [one_shot_enabled] at hcount
      rw [Nat.add_right_cancel hcount]
      exact hinv
    · simp only [dma_set_priority, ERROR_CHECK_RANGE_true _ _ _ hprio, if_true]
      exact hinv

theorem run_dma_calls_invariant (p : Platform) (calls : List DmaCall) :
    ∀ s : Machine, s.clock_idle_disabled = 1000 + (one_shot_enabled_count s : Int) →
      paired_calls p calls s = true →
      (run_dma_calls p calls s).clock_idle_disabled
        = 1000 + (one_shot_enabled_count (run_dma_calls p calls s) : Int) := by
  induction calls with
  | nil => intro s h _; exact h
  | cons call rest ih =>
    intro s h hp
    simp only [paired_calls, Bool.and_eq_true] at hp
    exact ih (call.run p s) (DmaCall.run_invariant p call s h hp.1) hp.2

/-- What one block of `dma_disable_channel` leaves in the fields of its channel that the
interrupt handler reads. -/
theorem dma_disable_channel_case_fields (c : Nat) (s : Machine) :
    (dma_disable_channel_case c s).pingpong_dma c = 0 ∧
      ((dma_disable_channel_case c s).DMA c).CHEN = 0 ∧
      (dma_disable_channel_case c s).DMA_Data = s.DMA_Data := by
  by_cases hm : (s.DMA c).MODE = DMA_OPERATING_ONE_SHOT ∨
      (s.DMA c).MODE = DMA_OPERATING_ONE_SHOT_PING_PONG
  · rw [dma_disable_channel_case_one_shot c s hm]
    simp only [clock_enable_idle]
    split <;> simp
  · rw [dma_disable_channel_case_continuous c s hm]
    simp

/-- With legal enumerated arguments, `pwm_disable` and `pwm_set_duty` fall to their default case
on an identifier that is none of the four enumerators. -/
theorem pwm_invalid_id (h : PwmHeader) (pwm_id duty : Int) (s : PwmState)
    (hid : pwm_id ≠ h.PWM_1 ∧ pwm_id ≠ h.PWM_2 ∧ pwm_id ≠ h.PWM_3 ∧ pwm_id ≠ h.PWM_4) :
    pwm_disable h pwm_id s
        = ({ s with UDIS := 1 }, [⟨.PWM_ERROR_INVALID_PWM_ID, pwm_id⟩]) ∧
      pwm_set_duty h pwm_id duty s
        = ({ s with UDIS := 1 }, [⟨.PWM_ERROR_INVALID_PWM_ID, pwm_id⟩]) := by
  obtain ⟨h1, h2, h3, h4⟩ := hid
  constructor
  · simp only [pwm_disable, if_neg h1, if_neg h2, if_neg h3, if_neg h4, error_report]
  · simp only [pwm_set_duty, if_neg h1, if_neg h2, if_neg h3, if_neg h4, error_report]

/-! ## Claims -/

/-- C1: on a channel `c` in `0..7` whose slot `DMA_Data[c]` holds a non-null callback `cb` that
touches neither the slot nor the half-indicator of `c`, and whose half-indicator is `0`, any
number `n` of completion interrupts in a row all run, and the `k`-th of them (`k = 1, 2, ...`)
calls `cb` with the channel id `c` and `is_first_half = true` exactly when `k` is odd; four
interrupts report true, false, true, false. -/
theorem DMAxInterrupts_alternate (code : CallbackTable) (c cb : Nat) (_hc : c < 8)
    (hcb : cb ≠ 0)
    (hframe : ∀ ch b s, (code cb ch b s).pingpong_dma c = s.pingpong_dma c ∧
      (code cb ch b s).DMA_Data c = s.DMA_Data c)
    (s : Machine) (hreg : s.DMA_Data c = cb) (h0 : s.pingpong_dma c = 0) :
    (∀ n, (DMAxInterrupts code c n s).map Prod.snd
        = some ((List.range n).map
            (fun i => (⟨cb, DMA_CHANNEL c, decide ((i + 1) % 2 = 1)⟩ : Invocation)))) ∧
    ((DMAxInterrupts code c 4 s).map (fun r => r.2.map Invocation.is_first_half)
        = some [true, false, true, false]) := by
  have key : ∀ n, (DMAxInterrupts code c n s).map Prod.snd
      = some ((List.range n).map
          (fun i => (⟨cb, DMA_CHANNEL c, decide ((i + 1) % 2 = 1)⟩ : Invocation))) := by
    intro n
    obtain ⟨s1, hrun, -⟩ := DMAxInterrupts_trace code c cb hcb hframe n 0 s hreg (by simpa using h0)
    rw [hrun]
    simp only [Option.map_some', Option.some.injEq]
    apply List.map_congr_left
    intro i _
    have : decide ((0 + i) % 2 = 0) = decide ((i + 1) % 2 = 1) := by
      rcases Nat.mod_two_eq_zero_or_one i with h | h
      · have h2 : (i + 1) % 2 = 1 := by omega
        simp [h, h2]
      · have h2 : (i + 1) % 2 = 0 := by omega
        simp [h, h2]
    rw [this]
  refine ⟨key, ?_⟩
  have h4 := key 4
  cases hrun : DMAxInterrupts code c 4 s with
  | none => rw [hrun] at h4; simp at h4
  | some r =>
    rw [hrun] at h4
    simp only [Option.map_some', Option.some.injEq] at h4 ⊢
    rw [h4]
    rfl

theorem DMAxInterrupts_alternate_witness :
    (DMAxInterrupts idleCallbacks 2 4 sampleRegistered).map
        (fun r => r.2.map Invocation.is_first_half)
      = some [true, false, true, false] :=
  (DMAxInterrupts_alternate idleCallbacks 2 7 (by decide) (by decide)
    (fun _ _ _ => ⟨rfl, rfl⟩) sampleRegistered (by decide) (by decide)).2

/-- C2: end-to-end trace. From a state with the idle counter at 1000 and all half-indicators 0,
`dma_init_channel` on channel 2 with legal arguments, operating mode one-shot-ping-pong, buffer A
at window offset 0, buffer B at window offset 256, transfer count 256 and a non-null callback
`cb` (which leaves the slot, the half-indicator and the operating mode of channel 2 and the idle
counter alone) is followed by `dma_enable_channel(2)`, which makes the idle counter 1001; three
completion interrupts on channel 2 then call `cb` with `(2,true)`, `(2,false)`, `(2,true)` in
that order; `dma_disable_channel(2)` then brings the counter back to 1000 and the half-indicator
of channel 2 back to 0. No step reports an error (the configuration none when the window lies
inside the 16-bit address space, where it also programs the offsets 0 and 256 and the count
255). -/
theorem dma_one_shot_ping_pong_end_to_end (p : Platform) (code : CallbackTable)
    (request_source data_size transfer_dir interrupt_pos null_write addressing_mode : Int)
    (peripheral_address cb : Nat) (s : Machine)
    (hs : s.clock_idle_disabled = 1000 ∧ ∀ i, s.pingpong_dma i = 0)
    (hsrc : request_source ∈ p.request_sources)
    (hds : 0 ≤ data_size ∧ data_size ≤ 1) (hdir : 0 ≤ transfer_dir ∧ transfer_dir ≤ 1)
    (hpos : 0 ≤ interrupt_pos ∧ interrupt_pos ≤ 1) (hnw : 0 ≤ null_write ∧ null_write ≤ 1)
    (ham : 0 ≤ addressing_mode ∧ addressing_mode ≤ 2)
    (hcb : cb ≠ 0)
    (hframe : ∀ ch b s, (code cb ch b s).pingpong_dma 2 = s.pingpong_dma 2 ∧
      (code cb ch b s).DMA_Data 2 = s.DMA_Data 2)
    (hframe2 : ∀ ch b s, ((code cb ch b s).DMA 2).MODE = (s.DMA 2).MODE ∧
      (code cb ch b s).clock_idle_disabled = s.clock_idle_disabled) :
    let r0 := dma_init_channel p (DMA_CHANNEL 2) request_source data_size transfer_dir
      interrupt_pos null_write addressing_mode DMA_OPERATING_ONE_SHOT_PING_PONG
      p.DMA_BASE (p.DMA_BASE + 256) peripheral_address 256 cb s
    let r1 := dma_enable_channel (DMA_CHANNEL 2) r0.1
    (p.DMA_BASE + 8192 < 65536 →
      r0.2 = [] ∧ (r0.1.DMA 2).STA = 0 ∧ (r0.1.DMA 2).STB = 256 ∧ (r0.1.DMA 2).CNT = 255) ∧
    r1.2 = [] ∧ r1.1.clock_idle_disabled = 1001 ∧
    ∃ s3, DMAxInterrupts code 2 3 r1.1
        = some (s3, [⟨cb, 2, true⟩, ⟨cb, 2, false⟩, ⟨cb, 2, true⟩]) ∧
      (dma_disable_channel (DMA_CHANNEL 2) s3).2 = [] ∧
      (dma_disable_channel (DMA_CHANNEL 2) s3).1.clock_idle_disabled = 1000 ∧
      (dma_disable_channel (DMA_CHANNEL 2) s3).1.pingpong_dma 2 = 0 := by
  intro r0 r1
  have hr0 : r0 = dma_init_channel_case p 2 2 request_source data_size transfer_dir
      interrupt_pos null_write addressing_mode DMA_OPERATING_ONE_SHOT_PING_PONG
      p.DMA_BASE (p.DMA_BASE + 256) peripheral_address 256 cb s :=
    dma_init_channel_dispatch p 2 (by decide) _ _ _ _ _ _ _ _ _ _ _ _ s hsrc hds hdir hpos hnw ham
      (by decide)
  have hen : r1 = (dma_enable_channel_case 2 r0.1, []) := by
    simp [r1, dma_enable_channel, DMA_CHANNEL]
  have hmode : (r0.1.DMA 2).MODE = 3 := by
    rw [hr0]; simp [dma_init_channel_case, DMA_OPERATING_ONE_SHOT_PING_PONG]
  have hdata : r0.1.DMA_Data 2 = cb := by
    rw [hr0]; simp [dma_init_channel_case, hcb]
  have hpp : r0.1.pingpong_dma 2 = 0 := by
    rw [hr0]; simp [dma_init_channel_case, hs.2]
  have hctr : r0.1.clock_idle_disabled = 1000 := by
    rw [hr0]; simp [dma_init_channel_case, hs.1]
  have e1 : r1.1.clock_idle_disabled = 1001 := by
    rw [hen]
    simp [dma_enable_channel_case, hmode, hctr, clock_disable_idle, atomic_add,
      DMA_OPERATING_ONE_SHOT, DMA_OPERATING_ONE_SHOT_PING_PONG]
  have e2 : (r1.1.DMA 2).MODE = 3 := by
    rw [hen]
    simp [dma_enable_channel_case, hmode, hctr, clock_disable_idle, atomic_add,
      DMA_OPERATING_ONE_SHOT, DMA_OPERATING_ONE_SHOT_PING_PONG]
  have e3 : r1.1.DMA_Data 2 = cb := by
    rw [hen]
    simp [dma_enable_channel_case, hmode, hctr, hdata, clock_disable_idle, atomic_add,
      DMA_OPERATING_ONE_SHOT, DMA_OPERATING_ONE_SHOT_PING_PONG]
  have e4 : r1.1.pingpong_dma 2 = 0 := by
    rw [hen]
    simp [dma_enable_channel_case, hmode, hctr, hpp, clock_disable_idle, atomic_add,
      DMA_OPERATING_ONE_SHOT, DMA_OPERATING_ONE_SHOT_PING_PONG]
  refine ⟨?_, by rw [hen], e1, ?_⟩
  · intro hbase
    have hsz : buffer_size 256 data_size = 256 * unit_size data_size :=
      buffer_size_exact 256 data_size hds (by unfold unit_size; omega)
    have hu : unit_size data_size ≤ 2 := by unfold unit_size; omega
    have hA := get_offset_used_or_not p p.DMA_BASE (buffer_size 256 data_size) hbase
      (by rw [hsz]; omega)
    have hB := get_offset_inside p (p.DMA_BASE + 256) (buffer_size 256 data_size) hbase
      (by omega) (by omega) (by rw [hsz]; omega)
    rw [hr0]
    simp only [dma_init_channel_case, hA, hB, upd_same, List.append_nil, true_and]
    refine ⟨by split <;> omega, by omega, by norm_num⟩
  · obtain ⟨s3, hrun, hd3, hp3, hk3⟩ :=
      DMAxInterrupts_trace code 2 cb hcb hframe 3 0 r1.1 e3 (by simpa using e4)
    obtain ⟨hm3, hc3⟩ := hk3 hframe2
    refine ⟨s3, ?_, ?_, ?_, ?_⟩
    · rw [hrun]; rfl
    · simp [dma_disable_channel, DMA_CHANNEL]
    · simp [dma_disable_channel, DMA_CHANNEL, dma_disable_channel_case, hm3, e2, hc3, e1,
        clock_enable_idle, atomic_add, DMA_OPERATING_ONE_SHOT,
        DMA_OPERATING_ONE_SHOT_PING_PONG]
    · simp [dma_disable_channel, DMA_CHANNEL, dma_disable_channel_case, hm3, e2, hc3, e1,
        clock_enable_idle, atomic_add, DMA_OPERATING_ONE_SHOT,
        DMA_OPERATING_ONE_SHOT_PING_PONG]

theorem dma_one_shot_ping_pong_end_to_end_witness :
    (dma_enable_channel (DMA_CHANNEL 2)
        (dma_init_channel samplePlatform (DMA_CHANNEL 2) 0 1 0 0 0 0
          DMA_OPERATING_ONE_SHOT_PING_PONG samplePlatform.DMA_BASE
          (samplePlatform.DMA_BASE + 256) 0x220 256 7 Machine.initial).1).1.clock_idle_disabled
      = 1001 :=
  (dma_one_shot_ping_pong_end_to_end samplePlatform idleCallbacks 0 1 0 0 0 0 0x220 7
    Machine.initial ⟨rfl, fun _ => rfl⟩ (by decide) (by decide) (by decide) (by decide)
    (by decide) (by decide) (by decide) (fun _ _ _ => ⟨rfl, rfl⟩)
    (fun _ _ _ => ⟨rfl, rfl⟩)).2.2.1

/-- C3, evaluated on channel 5: from the start-up state, `dma_init_channel` on channel 5 with the
non-null callback 7 and otherwise legal arguments reports no error and enables the interrupt of
channel 5, but stores the callback in `DMA_Data[0]`; `DMA_Data[5]`, through which
`_DMA5Interrupt` calls, is still null, so the next completion interrupt of channel 5 does not
call the callback 7. -/
theorem dma_init_channel_5_writes_slot_0 :
    (dma_init_channel samplePlatform (DMA_CHANNEL 5) 0 1 0 0 0 0 3 0x4000 0x4100 0x220 256 7
        Machine.initial).2 = [] ∧
    ((dma_init_channel samplePlatform (DMA_CHANNEL 5) 0 1 0 0 0 0 3 0x4000 0x4100 0x220 256 7
        Machine.initial).1.DMA 5).IE = 1 ∧
    (dma_init_channel samplePlatform (DMA_CHANNEL 5) 0 1 0 0 0 0 3 0x4000 0x4100 0x220 256 7
        Machine.initial).1.DMA_Data 5 = 0 ∧
    (dma_init_channel samplePlatform (DMA_CHANNEL 5) 0 1 0 0 0 0 3 0x4000 0x4100 0x220 256 7
        Machine.initial).1.DMA_Data 0 = 7 ∧
    (DMAxInterrupt idleCallbacks 5
        (dma_init_channel samplePlatform (DMA_CHANNEL 5) 0 1 0 0 0 0 3 0x4000 0x4100 0x220 256 7
          Machine.initial).1).map Prod.snd = none := by
  refine ⟨by decide, by decide, by decide, by decide, by decide⟩

/-- C4, evaluated past the end of the window: with the window base at `0x4000`, the non-null
address `0x4000` and the size 8193 satisfy `(a - window_base) + s > 8192`, and `get_offset`
returns the offset 0 without a report, because it compares `offset + size` with
`window_base + 0x2000`. -/
theorem get_offset_accepts_past_window_end :
    samplePlatform.DMA_BASE = 0x4000 ∧ (0x4000 - samplePlatform.DMA_BASE) + 8193 > 8192 ∧
      get_offset samplePlatform 0x4000 8193 = (0, []) := by
  refine ⟨rfl, by decide, by decide⟩

/-- C5: for a window base `B` with `B + 8192` representable in 16 bits, a non-zero address
`a ≥ B` and a size `s` with `(a - B) + s ≤ 8192`, `get_offset` reports no error and returns
exactly `a - B`. -/
theorem get_offset_in_window (p : Platform) (a s : Nat) (hbase : p.DMA_BASE + 8192 < 65536)
    (ha : a ≠ 0) (hge : p.DMA_BASE ≤ a) (hfit : (a - p.DMA_BASE) + s ≤ 8192) :
    (get_offset p a s).2 = [] ∧ (get_offset p a s).1 = a - p.DMA_BASE := by
  rw [get_offset_inside p a s hbase ha hge hfit]
  exact ⟨rfl, rfl⟩

theorem get_offset_in_window_witness :
    (get_offset samplePlatform 0x4100 512).2 = [] ∧
      (get_offset samplePlatform 0x4100 512).1 = 0x4100 - 0x4000 :=
  get_offset_in_window samplePlatform 0x4100 512 (by decide) (by decide) (by decide) (by decide)

/-- C6: for every size and every window base, `get_offset` applied to the null address (the
"unused buffer" sentinel) returns 0 and reports no error. -/
theorem get_offset_unused_sentinel (p : Platform) (s : Nat) :
    (get_offset p 0 s).1 = 0 ∧ (get_offset p 0 s).2 = [] := by
  rw [get_offset_null]
  exact ⟨rfl, rfl⟩

/-- C7, evaluated on two buffers that do not fit the window: with the window base at `0x4000`,
`dma_init_channel` completes without a report for buffer A at `0x4000` with 8193 byte units
(`(a - window_base) + n*u = 8193`), and for buffer A at `0x4000` with 32768 word units
(`n*u = 65536`, which `transfer_count * (2-data_size)` wraps to 0). -/
theorem dma_init_channel_accepts_buffer_outside_window :
    ((dma_init_channel samplePlatform (DMA_CHANNEL 0) 0 1 0 0 0 0 0 0x4000 0 0x220 8193 0
        Machine.initial).2 = [] ∧
      (0x4000 - samplePlatform.DMA_BASE) + 8193 * unit_size 1 > 8192) ∧
    ((dma_init_channel samplePlatform (DMA_CHANNEL 0) 0 0 0 0 0 0 0 0x4000 0 0x220 32768 0
        Machine.initial).2 = [] ∧
      (0x4000 - samplePlatform.DMA_BASE) + 32768 * unit_size 0 > 8192 ∧
      buffer_size 32768 0 = 0) := by
  refine ⟨⟨by decide, by decide⟩, by decide, by decide, by decide⟩

/-- C8, what the code does instead: when buffer A lies below the window (so `get_offset` reports
`DMA_ERROR_INVALID_ADDRESS`) and the other arguments are legal, `dma_init_channel` on a channel
`c` in `0..7` does not abort after the report: it writes the value the failing `get_offset` left
to `DMAcSTA`, goes on to validate buffer B, and writes the peripheral address, the transfer
count, the callback slot and the interrupt-enable bit. -/
theorem dma_init_channel_continues_after_invalid_address (p : Platform) (c : Nat) (hc : c < 8)
    (request_source data_size transfer_dir interrupt_pos null_write addressing_mode
      operating_mode : Int)
    (a b peripheral_address transfer_count callback : Nat) (s : Machine)
    (hsrc : request_source ∈ p.request_sources)
    (hds : 0 ≤ data_size ∧ data_size ≤ 1) (hdir : 0 ≤ transfer_dir ∧ transfer_dir ≤ 1)
    (hpos : 0 ≤ interrupt_pos ∧ interrupt_pos ≤ 1) (hnw : 0 ≤ null_write ∧ null_write ≤ 1)
    (ham : 0 ≤ addressing_mode ∧ addressing_mode ≤ 2)
    (hom : 0 ≤ operating_mode ∧ operating_mode ≤ 3)
    (ha : a ≠ 0) (hlt : a < p.DMA_BASE) (hbase : p.DMA_BASE < 65536) (hcb : callback ≠ 0) :
    (dma_init_channel p (DMA_CHANNEL c) request_source data_size transfer_dir interrupt_pos
        null_write addressing_mode operating_mode a b peripheral_address transfer_count
        callback s).2
      = ⟨.DMA_ERROR_INVALID_ADDRESS, (a : Int)⟩
          :: (get_offset p b (buffer_size transfer_count data_size)).2 ∧
    ((dma_init_channel p (DMA_CHANNEL c) request_source data_size transfer_dir interrupt_pos
        null_write addressing_mode operating_mode a b peripheral_address transfer_count
        callback s).1.DMA c).STA = p.indeterminate a (buffer_size transfer_count data_size) ∧
    ((dma_init_channel p (DMA_CHANNEL c) request_source data_size transfer_dir interrupt_pos
        null_write addressing_mode operating_mode a b peripheral_address transfer_count
        callback s).1.DMA c).PAD = peripheral_address ∧
    ((dma_init_channel p (DMA_CHANNEL c) request_source data_size transfer_dir interrupt_pos
        null_write addressing_mode operating_mode a b peripheral_address transfer_count
        callback s).1.DMA c).CNT = (transfer_count + 65535) % 65536 ∧
    (dma_init_channel p (DMA_CHANNEL c) request_source data_size transfer_dir interrupt_pos
        null_write addressing_mode operating_mode a b peripheral_address transfer_count
        callback s).1.DMA_Data (callback_slot c) = callback ∧
    ((dma_init_channel p (DMA_CHANNEL c) request_source data_size transfer_dir interrupt_pos
        null_write addressing_mode operating_mode a b peripheral_address transfer_count
        callback s).1.DMA c).IE = 1 := by
  rw [dma_init_channel_dispatch p c hc _ _ _ _ _ _ _ _ _ _ _ _ s hsrc hds hdir hpos hnw ham hom]
  simp only [dma_init_channel_case, get_offset_below p a _ ha hlt hbase, upd_same, hcb,
    ne_eq, not_false_eq_true, if_true, List.singleton_append, and_self]

theorem dma_init_channel_continues_after_invalid_address_witness :
    (dma_init_channel samplePlatform (DMA_CHANNEL 0) 0 1 0 0 0 0 3 1 0 0x220 256 7
        Machine.initial).2 = [⟨.DMA_ERROR_INVALID_ADDRESS, 1⟩] ∧
    ((dma_init_channel samplePlatform (DMA_CHANNEL 0) 0 1 0 0 0 0 3 1 0 0x220 256 7
        Machine.initial).1.DMA 0).PAD = 0x220 ∧
    (Machine.initial.DMA 0).PAD = 0 := by
  have h := dma_init_channel_continues_after_invalid_address samplePlatform 0 (by decide)
    0 1 0 0 0 0 3 1 0 0x220 256 7 Machine.initial (by decide) (by decide) (by decide)
    (by decide) (by decide) (by decide) (by decide) (by decide) (by decide) (by decide)
    (by decide)
  exact ⟨h.1, h.2.2.1, rfl⟩

/-- C9: when an enumerated argument of `dma_init_channel` is outside its legal set (request
source not among the request sources, data size, transfer direction, interrupt position or
null-write mode outside `0..1`, addressing mode outside `0..2`, operating mode outside `0..3`),
exactly one error is reported, of the kind of the first invalid argument in that order and with
the offending value, and the state is returned unchanged, whatever the channel and the other
arguments are. -/
theorem dma_init_channel_first_invalid_argument (p : Platform)
    (channel request_source data_size transfer_dir interrupt_pos null_write addressing_mode
      operating_mode : Int)
    (a b peripheral_address transfer_count callback : Nat) (s : Machine) :
    (request_source ∉ p.request_sources →
      dma_init_channel p channel request_source data_size transfer_dir interrupt_pos null_write
        addressing_mode operating_mode a b peripheral_address transfer_count callback s
      = (s, [⟨.DMA_ERROR_INVALID_REQUEST_SOURCE, request_source⟩])) ∧
    (request_source ∈ p.request_sources → ¬ (0 ≤ data_size ∧ data_size ≤ 1) →
      dma_init_channel p channel request_source data_size transfer_dir interrupt_pos null_write
        addressing_mode operating_mode a b peripheral_address transfer_count callback s
      = (s, [⟨.DMA_ERROR_INVALID_DATA_SIZE, data_size⟩])) ∧
    (request_source ∈ p.request_sources → (0 ≤ data_size ∧ data_size ≤ 1) →
      ¬ (0 ≤ transfer_dir ∧ transfer_dir ≤ 1) →
      dma_init_channel p channel request_source data_size transfer_dir interrupt_pos null_write
        addressing_mode operating_mode a b peripheral_address transfer_count callback s
      = (s, [⟨.DMA_ERROR_INVALID_TRANSFER_DIRECTION, transfer_dir⟩])) ∧
    (request_source ∈ p.request_sources → (0 ≤ data_size ∧ data_size ≤ 1) →
      (0 ≤ transfer_dir ∧ transfer_dir ≤ 1) → ¬ (0 ≤ interrupt_pos ∧ interrupt_pos ≤ 1) →
      dma_init_channel p channel request_source data_size transfer_dir interrupt_pos null_write
        addressing_mode operating_mode a b peripheral_address transfer_count callback s
      = (s, [⟨.DMA_ERROR_INVALID_INTERRUPT_POSITION, interrupt_pos⟩])) ∧
    (request_source ∈ p.request_sources → (0 ≤ data_size ∧ data_size ≤ 1) →
      (0 ≤ transfer_dir ∧ transfer_dir ≤ 1) → (0 ≤ interrupt_pos ∧ interrupt_pos ≤ 1) →
      ¬ (0 ≤ null_write ∧ null_write ≤ 1) →
      dma_init_channel p channel request_source data_size transfer_dir interrupt_pos null_write
        addressing_mode operating_mode a b peripheral_address transfer_count callback s
      = (s, [⟨.DMA_ERROR_INVALID_WRITE_NULL_MODE, null_write⟩])) ∧
    (request_source ∈ p.request_sources → (0 ≤ data_size ∧ data_size ≤ 1) →
      (0 ≤ transfer_dir ∧ transfer_dir ≤ 1) → (0 ≤ interrupt_pos ∧ interrupt_pos ≤ 1) →
      (0 ≤ null_write ∧ null_write ≤ 1) → ¬ (0 ≤ addressing_mode ∧ addressing_mode ≤ 2) →
      dma_init_channel p channel request_source data_size transfer_dir interrupt_pos null_write
        addressing_mode operating_mode a b peripheral_address transfer_count callback s
      = (s, [⟨.DMA_ERROR_INVALID_ADDRESSING_MODE, addressing_mode⟩])) ∧
    (request_source ∈ p.request_sources → (0 ≤ data_size ∧ data_size ≤ 1) →
      (0 ≤ transfer_dir ∧ transfer_dir ≤ 1) → (0 ≤ interrupt_pos ∧ interrupt_pos ≤ 1) →
      (0 ≤ null_write ∧ null_write ≤ 1) → (0 ≤ addressing_mode ∧ addressing_mode ≤ 2) →
      ¬ (0 ≤ operating_mode ∧ operating_mode ≤ 3) →
      dma_init_channel p channel request_source data_size transfer_dir interrupt_pos null_write
        addressing_mode operating_mode a b peripheral_address transfer_count callback s
      = (s, [⟨.DMA_ERROR_INVALID_OPERATING_MODE, operating_mode⟩])) := by
  refine ⟨?_, ?_, ?_, ?_, ?_, ?_, ?_⟩
  · intro h1
    simp only [dma_init_channel, error_report, if_pos h1]
  · intro h1 h2
    simp only [dma_init_channel, error_report, not_not.mpr h1, if_false,
      ERROR_CHECK_RANGE_true _ _ _ h2, if_true]
  · intro h1 h2 h3
    simp only [dma_init_channel, error_report, not_not.mpr h1, if_false,
      ERROR_CHECK_RANGE_false _ _ _ h2, ERROR_CHECK_RANGE_true _ _ _ h3, if_true,
      Bool.false_eq_true]
  · intro h1 h2 h3 h4
    simp only [dma_init_channel, error_report, not_not.mpr h1, if_false,
      ERROR_CHECK_RANGE_false _ _ _ h2, ERROR_CHECK_RANGE_false _ _ _ h3,
      ERROR_CHECK_RANGE_true _ _ _ h4, if_true, Bool.false_eq_true]
  · intro h1 h2 h3 h4 h5
    simp only [dma_init_channel, error_report, not_not.mpr h1, if_false,
      ERROR_CHECK_RANGE_false _ _ _ h2, ERROR_CHECK_RANGE_false _ _ _ h3,
      ERROR_CHECK_RANGE_false _ _ _ h4, ERROR_CHECK_RANGE_true _ _ _ h5, if_true,
      Bool.false_eq_true]
  · intro h1 h2 h3 h4 h5 h6
    simp only [dma_init_channel, error_report, not_not.mpr h1, if_false,
      ERROR_CHECK_RANGE_false _ _ _ h2, ERROR_CHECK_RANGE_false _ _ _ h3,
      ERROR_CHECK_RANGE_false _ _ _ h4, ERROR_CHECK_RANGE_false _ _ _ h5,
      ERROR_CHECK_RANGE_true _ _ _ h6, if_true, Bool.false_eq_true]
  · intro h1 h2 h3 h4 h5 h6 h7
    simp only [dma_init_channel, error_report, not_not.mpr h1, if_false,
      ERROR_CHECK_RANGE_false _ _ _ h2, ERROR_CHECK_RANGE_false _ _ _ h3,
      ERROR_CHECK_RANGE_false _ _ _ h4, ERROR_CHECK_RANGE_false _ _ _ h5,
      ERROR_CHECK_RANGE_false _ _ _ h6, ERROR_CHECK_RANGE_true _ _ _ h7, if_true,
      Bool.false_eq_true]

theorem dma_init_channel_first_invalid_argument_witness :
    dma_init_channel samplePlatform (DMA_CHANNEL 3) 0 0 0 0 0 5 9 0x4000 0 0x220 16 7
        Machine.initial
      = (Machine.initial, [⟨.DMA_ERROR_INVALID_ADDRESSING_MODE, 5⟩]) :=
  (dma_init_channel_first_invalid_argument samplePlatform (DMA_CHANNEL 3) 0 0 0 0 0 5 9
    0x4000 0 0x220 16 7 Machine.initial).2.2.2.2.2.1 (by decide) (by decide) (by decide)
    (by decide) (by decide) (by decide)

/-- C10: for a channel `c` in `0..7`, legal enumerated arguments, a transfer count of at least
one unit and buffers that are unused (null) or lie inside the window (the window itself lying
inside the 16-bit address space), `dma_init_channel` reports no error and leaves the registers
of channel `c` with the enable bit 0, the seven enumerated fields equal to the arguments, the
two buffer offsets equal to `a - window_base` and `b - window_base` (0 for an unused buffer),
the peripheral address equal to the argument and the count register `transfer_count - 1`. -/
theorem dma_init_channel_programs_channel (p : Platform) (c : Nat) (hc : c < 8)
    (request_source data_size transfer_dir interrupt_pos null_write addressing_mode
      operating_mode : Int)
    (a b peripheral_address transfer_count callback : Nat) (s : Machine)
    (hbase : p.DMA_BASE + 8192 < 65536)
    (hsrc : request_source ∈ p.request_sources)
    (hds : 0 ≤ data_size ∧ data_size ≤ 1) (hdir : 0 ≤ transfer_dir ∧ transfer_dir ≤ 1)
    (hpos : 0 ≤ interrupt_pos ∧ interrupt_pos ≤ 1) (hnw : 0 ≤ null_write ∧ null_write ≤ 1)
    (ham : 0 ≤ addressing_mode ∧ addressing_mode ≤ 2)
    (hom : 0 ≤ operating_mode ∧ operating_mode ≤ 3)
    (hcount : 1 ≤ transfer_count ∧ transfer_count < 65536)
    (ha : a = 0 ∨ (p.DMA_BASE ≤ a ∧
      (a - p.DMA_BASE) + transfer_count * unit_size data_size ≤ 8192))
    (hb : b = 0 ∨ (p.DMA_BASE ≤ b ∧
      (b - p.DMA_BASE) + transfer_count * unit_size data_size ≤ 8192)) :
    (dma_init_channel p (DMA_CHANNEL c) request_source data_size transfer_dir interrupt_pos
        null_write addressing_mode operating_mode a b peripheral_address transfer_count
        callback s).2 = [] ∧
    ((dma_init_channel p (DMA_CHANNEL c) request_source data_size transfer_dir interrupt_pos
        null_write addressing_mode operating_mode a b peripheral_address transfer_count
        callback s).1.DMA c) =
      { s.DMA c with
        CHEN := 0
        IRQSEL := request_source
        SIZE := data_size
        DIR := transfer_dir
        HALF := interrupt_pos
        NULLW := null_write
        AMODE := addressing_mode
        MODE := operating_mode
        STA := if a = 0 then 0 else a - p.DMA_BASE
        STB := if b = 0 then 0 else b - p.DMA_BASE
        PAD := peripheral_address
        CNT := transfer_count - 1
        IF := 0
        IE := if callback ≠ 0 then 1 else 0 } := by
  rw [dma_init_channel_dispatch p c hc _ _ _ _ _ _ _ _ _ _ _ _ s hsrc hds hdir hpos hnw ham hom]
  have hcnt : (transfer_count + 65535) % 65536 = transfer_count - 1 := by omega
  by_cases hab : a = 0 ∧ b = 0
  · obtain ⟨rfl, rfl⟩ := hab
    simp only [dma_init_channel_case, get_offset_null, hcnt, upd_same, List.append_nil, if_true,
      and_self]
  · have hfit : transfer_count * unit_size data_size ≤ 8192 := by
      rcases ha with ha | ha
      · rcases hb with hb | hb
        · exact absurd ⟨ha, hb⟩ hab
        · omega
      · omega
    have hsz := buffer_size_exact transfer_count data_size hds (by omega)
    have hA := get_offset_used_or_not p a _ hbase (hsz ▸ ha)
    have hB := get_offset_used_or_not p b _ hbase (hsz ▸ hb)
    simp only [dma_init_channel_case, hA, hB, hcnt, upd_same, List.append_nil, and_self]

theorem dma_init_channel_programs_channel_witness :
    (dma_init_channel samplePlatform (DMA_CHANNEL 5) 13 0 0 1 0 2 2 0x4000 0x4400 0x300 512 0
        { Machine.initial with DMA := fun _ => { DmaRegs.reset with CHEN := 1 } }).2 = [] ∧
    ((dma_init_channel samplePlatform (DMA_CHANNEL 5) 13 0 0 1 0 2 2 0x4000 0x4400 0x300 512 0
        { Machine.initial with DMA := fun _ => { DmaRegs.reset with CHEN := 1 } }).1.DMA 5)
      = { CHEN := 0, SIZE := 0, DIR := 0, HALF := 1, NULLW := 0, AMODE := 2, MODE := 2,
          IRQSEL := 13, FORCE := 0, STA := 0, STB := 1024, PAD := 0x300, CNT := 511, IF := 0,
          IE := 0, IP := 0 } :=
  dma_init_channel_programs_channel samplePlatform 5 (by decide) 13 0 0 1 0 2 2 0x4000 0x4400
    0x300 512 0 { Machine.initial with DMA := fun _ => { DmaRegs.reset with CHEN := 1 } }
    (by decide) (by decide) (by decide) (by decide) (by decide) (by decide) (by decide)
    (by decide) (by decide) (by decide) (by decide)

/-- C11: after a `dma_init_channel` on a channel `c` in `0..7` that reports no error, the
interrupt-enable bit of `c` is set if and only if the callback is non-null, and the
pending-interrupt flag of `c` is clear. -/
theorem dma_init_channel_interrupt_bits (p : Platform) (c : Nat) (hc : c < 8)
    (request_source data_size transfer_dir interrupt_pos null_write addressing_mode
      operating_mode : Int)
    (a b peripheral_address transfer_count callback : Nat) (s : Machine)
    (h : (dma_init_channel p (DMA_CHANNEL c) request_source data_size transfer_dir
      interrupt_pos null_write addressing_mode operating_mode a b peripheral_address
      transfer_count callback s).2 = []) :
    (((dma_init_channel p (DMA_CHANNEL c) request_source data_size transfer_dir interrupt_pos
        null_write addressing_mode operating_mode a b peripheral_address transfer_count
        callback s).1.DMA c).IE = 1 ↔ callback ≠ 0) ∧
    ((dma_init_channel p (DMA_CHANNEL c) request_source data_size transfer_dir interrupt_pos
        null_write addressing_mode operating_mode a b peripheral_address transfer_count
        callback s).1.DMA c).IE = (if callback ≠ 0 then 1 else 0) ∧
    ((dma_init_channel p (DMA_CHANNEL c) request_source data_size transfer_dir interrupt_pos
        null_write addressing_mode operating_mode a b peripheral_address transfer_count
        callback s).1.DMA c).IF = 0 := by
  obtain ⟨h1, h2, h3, h4, h5, h6, h7⟩ := dma_init_channel_quiet_legal p _ _ _ _ _ _ _ _ _ _ _ _
    _ s h
  rw [dma_init_channel_dispatch p c hc _ _ _ _ _ _ _ _ _ _ _ _ s h1 h2 h3 h4 h5 h6 h7]
  simp only [dma_init_channel_case, upd_same]
  by_cases hcb : callback = 0 <;> simp [hcb]

theorem dma_init_channel_interrupt_bits_witness :
    ((dma_init_channel samplePlatform (DMA_CHANNEL 5) 0 1 0 0 0 0 3 0x4000 0x4100 0x220 256 7
        Machine.initial).1.DMA 5).IE = (if 7 ≠ 0 then 1 else 0) ∧
    ((dma_init_channel samplePlatform (DMA_CHANNEL 5) 0 1 0 0 0 0 3 0x4000 0x4100 0x220 256 7
        Machine.initial).1.DMA 5).IF = 0 :=
  (dma_init_channel_interrupt_bits samplePlatform 5 (by decide) 0 1 0 0 0 0 3 0x4000 0x4100
    0x220 256 7 Machine.initial (by decide)).2

/-- C12: for every channel index outside `0..7`, each of `dma_enable_channel`,
`dma_disable_channel` and `dma_start_transfer` reports `DMA_ERROR_INVALID_CHANNEL` exactly once
(with the offending index) and returns the state unchanged. -/
theorem dma_control_invalid_channel (channel : Int) (h : channel < 0 ∨ 7 < channel)
    (s : Machine) :
    dma_enable_channel channel s = (s, [⟨.DMA_ERROR_INVALID_CHANNEL, channel⟩]) ∧
    dma_disable_channel channel s = (s, [⟨.DMA_ERROR_INVALID_CHANNEL, channel⟩]) ∧
    dma_start_transfer channel s = (s, [⟨.DMA_ERROR_INVALID_CHANNEL, channel⟩]) := by
  obtain ⟨h0, h1, h2, h3, h4, h5, h6, h7⟩ := invalid_channel_ne channel h
  refine ⟨?_, ?_, ?_⟩
  · simp only [dma_enable_channel, if_neg h0, if_neg h1, if_neg h2, if_neg h3, if_neg h4,
      if_neg h5, if_neg h6, if_neg h7, error_report]
  · simp only [dma_disable_channel, if_neg h0, if_neg h1, if_neg h2, if_neg h3, if_neg h4,
      if_neg h5, if_neg h6, if_neg h7, error_report]
  · simp only [dma_start_transfer, if_neg h0, if_neg h1, if_neg h2, if_neg h3, if_neg h4,
      if_neg h5, if_neg h6, if_neg h7, error_report]

theorem dma_control_invalid_channel_witness :
    dma_enable_channel 8 Machine.initial
        = (Machine.initial, [⟨.DMA_ERROR_INVALID_CHANNEL, 8⟩]) ∧
    dma_disable_channel 8 Machine.initial
        = (Machine.initial, [⟨.DMA_ERROR_INVALID_CHANNEL, 8⟩]) ∧
    dma_start_transfer 8 Machine.initial
        = (Machine.initial, [⟨.DMA_ERROR_INVALID_CHANNEL, 8⟩]) :=
  dma_control_invalid_channel 8 (by decide) Machine.initial

/-- C13 as stated fails when another argument is illegal: on the channel index 8,
`dma_init_channel` with the request source 99 (not a request source of the platform) reports
`DMA_ERROR_INVALID_REQUEST_SOURCE`, and `dma_set_priority` with the priority 0 reports
`GENERIC_ERROR_INVALID_INTERRUPT_PRIORITY`; neither reports `DMA_ERROR_INVALID_CHANNEL`. -/
theorem dma_invalid_channel_other_error_first :
    (99 : Int) ∉ samplePlatform.request_sources ∧
    dma_init_channel samplePlatform 8 99 0 0 0 0 0 0 0 0 0 1 0 Machine.initial
      = (Machine.initial, [⟨.DMA_ERROR_INVALID_REQUEST_SOURCE, 99⟩]) ∧
    dma_set_priority 8 0 Machine.initial
      = (Machine.initial, [⟨.GENERIC_ERROR_INVALID_INTERRUPT_PRIORITY, 0⟩]) ∧
    (⟨.DMA_ERROR_INVALID_CHANNEL, 8⟩ : ErrorReport)
      ∉ (dma_init_channel samplePlatform 8 99 0 0 0 0 0 0 0 0 0 1 0 Machine.initial).2 ∧
    (⟨.DMA_ERROR_INVALID_CHANNEL, 8⟩ : ErrorReport) ∉ (dma_set_priority 8 0 Machine.initial).2 := by
  refine ⟨by decide, ?_, ?_, by decide, by decide⟩
  · simp [dma_init_channel, samplePlatform, error_report]
  · simp [dma_set_priority, ERROR_CHECK_RANGE, error_report]

/-- C13 amended: for every channel index outside `0..7` and every value of the remaining
arguments, `dma_init_channel` and `dma_set_priority` return the state unchanged and report
exactly one error; that error is `DMA_ERROR_INVALID_CHANNEL` whenever the remaining enumerated
arguments of `dma_init_channel` are legal, respectively the priority is in `[1, 7]`. -/
theorem dma_invalid_channel_no_mutation (p : Platform)
    (channel request_source data_size transfer_dir interrupt_pos null_write addressing_mode
      operating_mode prio : Int)
    (a b peripheral_address transfer_count callback : Nat) (s : Machine)
    (h : channel < 0 ∨ 7 < channel) :
    (∃ e, dma_init_channel p channel request_source data_size transfer_dir interrupt_pos
      null_write addressing_mode operating_mode a b peripheral_address transfer_count
      callback s = (s, [e])) ∧
    (request_source ∈ p.request_sources → (0 ≤ data_size ∧ data_size ≤ 1) →
      (0 ≤ transfer_dir ∧ transfer_dir ≤ 1) → (0 ≤ interrupt_pos ∧ interrupt_pos ≤ 1) →
      (0 ≤ null_write ∧ null_write ≤ 1) → (0 ≤ addressing_mode ∧ addressing_mode ≤ 2) →
      (0 ≤ operating_mode ∧ operating_mode ≤ 3) →
      dma_init_channel p channel request_source data_size transfer_dir interrupt_pos
        null_write addressing_mode operating_mode a b peripheral_address transfer_count
        callback s = (s, [⟨.DMA_ERROR_INVALID_CHANNEL, channel⟩])) ∧
    (∃ e, dma_set_priority channel prio s = (s, [e])) ∧
    ((1 ≤ prio ∧ prio ≤ 7) →
      dma_set_priority channel prio s = (s, [⟨.DMA_ERROR_INVALID_CHANNEL, channel⟩])) := by
  obtain ⟨h0, h1, h2, h3, h4, h5, h6, h7⟩ := invalid_channel_ne channel h
  refine ⟨dma_init_channel_invalid_channel p _ _ _ _ _ _ _ _ _ _ _ _ _ s h, ?_, ?_, ?_⟩
  · intro k1 k2 k3 k4 k5 k6 k7
    simp only [dma_init_channel, not_not.mpr k1, if_false, ERROR_CHECK_RANGE_false _ _ _ k2,
      ERROR_CHECK_RANGE_false _ _ _ k3, ERROR_CHECK_RANGE_false _ _ _ k4,
      ERROR_CHECK_RANGE_false _ _ _ k5, ERROR_CHECK_RANGE_false _ _ _ k6,
      ERROR_CHECK_RANGE_false _ _ _ k7, Bool.false_eq_true, if_neg h0, if_neg h1, if_neg h2,
      if_neg h3, if_neg h4, if_neg h5, if_neg h6, if_neg h7, error_report]
  · simp only [dma_set_priority, if_neg h0, if_neg h1, if_neg h2, if_neg h3, if_neg h4,
      if_neg h5, if_neg h6, if_neg h7, error_report]
    split_ifs <;> exact ⟨_, rfl⟩
  · intro k
    simp only [dma_set_priority, ERROR_CHECK_RANGE_false _ _ _ k, Bool.false_eq_true, if_false,
      if_neg h0, if_neg h1, if_neg h2, if_neg h3, if_neg h4, if_neg h5, if_neg h6, if_neg h7,
      error_report]

theorem dma_invalid_channel_no_mutation_witness :
    dma_init_channel samplePlatform (-1) 0 1 0 0 0 0 3 0x4000 0 0x220 16 7 Machine.initial
      = (Machine.initial, [⟨.DMA_ERROR_INVALID_CHANNEL, -1⟩]) ∧
    dma_set_priority (-1) 4 Machine.initial
      = (Machine.initial, [⟨.DMA_ERROR_INVALID_CHANNEL, -1⟩]) :=
  ⟨(dma_invalid_channel_no_mutation samplePlatform (-1) 0 1 0 0 0 0 3 4 0x4000 0 0x220 16 7
      Machine.initial (by decide)).2.1 (by decide) (by decide) (by decide) (by decide)
      (by decide) (by decide) (by decide),
    (dma_invalid_channel_no_mutation samplePlatform (-1) 0 1 0 0 0 0 3 4 0x4000 0 0x220 16 7
      Machine.initial (by decide)).2.2.2 (by decide)⟩

/-- C14 as stated fails at 2000: on a channel in one-shot mode with the idle counter at 2000,
`dma_enable_channel` does not leave the counter unchanged, it makes it 2001. -/
theorem dma_enable_channel_at_2000 :
    ((sampleOneShot 2000).DMA 0).MODE = DMA_OPERATING_ONE_SHOT ∧
    (sampleOneShot 2000).clock_idle_disabled = 2000 ∧
    (dma_enable_channel (DMA_CHANNEL 0) (sampleOneShot 2000)).1.clock_idle_disabled = 2001 ∧
    (dma_enable_channel (DMA_CHANNEL 0) (sampleOneShot 2000)).1.clock_idle_disabled
      ≠ (sampleOneShot 2000).clock_idle_disabled := by
  refine ⟨by decide, by decide, by decide, by decide⟩

/-- C14 amended: for a channel `c` in `0..7` whose configured operating mode is one-shot or
one-shot-ping-pong, `dma_enable_channel(c)` reports nothing, sets the enable bit of `c` and
increases the idle counter by exactly 1 whenever the counter is in `[1000, 2000]`, 2000
included. -/
theorem dma_enable_channel_one_shot (c : Nat) (hc : c < 8) (s : Machine)
    (hm : (s.DMA c).MODE = DMA_OPERATING_ONE_SHOT ∨
      (s.DMA c).MODE = DMA_OPERATING_ONE_SHOT_PING_PONG)
    (hn : 1000 ≤ s.clock_idle_disabled ∧ s.clock_idle_disabled ≤ 2000) :
    (dma_enable_channel (DMA_CHANNEL c) s).2 = [] ∧
    ((dma_enable_channel (DMA_CHANNEL c) s).1.DMA c).CHEN = 1 ∧
    (dma_enable_channel (DMA_CHANNEL c) s).1.clock_idle_disabled
      = s.clock_idle_disabled + 1 := by
  rw [dma_enable_channel_valid c hc, dma_enable_channel_case_inside c s hm hn]
  simp

theorem dma_enable_channel_one_shot_witness :
    (dma_enable_channel (DMA_CHANNEL 0) (sampleOneShot 1000)).2 = [] ∧
    ((dma_enable_channel (DMA_CHANNEL 0) (sampleOneShot 1000)).1.DMA 0).CHEN = 1 ∧
    (dma_enable_channel (DMA_CHANNEL 0) (sampleOneShot 1000)).1.clock_idle_disabled
      = (sampleOneShot 1000).clock_idle_disabled + 1 :=
  dma_enable_channel_one_shot 0 (by decide) (sampleOneShot 1000) (by decide) (by decide)

/-- C15 as stated fails at 1000: on a channel in one-shot mode with the idle counter at 1000,
`dma_disable_channel` does not leave the counter unchanged, it makes it 999. -/
theorem dma_disable_channel_at_1000 :
    ((sampleOneShot 1000).DMA 0).MODE = DMA_OPERATING_ONE_SHOT ∧
    (sampleOneShot 1000).clock_idle_disabled = 1000 ∧
    (dma_disable_channel (DMA_CHANNEL 0) (sampleOneShot 1000)).1.clock_idle_disabled = 999 ∧
    (dma_disable_channel (DMA_CHANNEL 0) (sampleOneShot 1000)).1.clock_idle_disabled
      ≠ (sampleOneShot 1000).clock_idle_disabled := by
  refine ⟨by decide, by decide, by decide, by decide⟩

/-- C15 amended: for a channel `c` in `0..7` whose configured operating mode is one-shot or
one-shot-ping-pong, `dma_disable_channel(c)` reports nothing, clears the enable bit of `c`,
resets the half-indicator of `c` to 0 and decreases the idle counter by exactly 1 whenever the
counter is in `[1000, 2000]`, 1000 included. -/
theorem dma_disable_channel_one_shot (c : Nat) (hc : c < 8) (s : Machine)
    (hm : (s.DMA c).MODE = DMA_OPERATING_ONE_SHOT ∨
      (s.DMA c).MODE = DMA_OPERATING_ONE_SHOT_PING_PONG)
    (hn : 1000 ≤ s.clock_idle_disabled ∧ s.clock_idle_disabled ≤ 2000) :
    (dma_disable_channel (DMA_CHANNEL c) s).2 = [] ∧
    ((dma_disable_channel (DMA_CHANNEL c) s).1.DMA c).CHEN = 0 ∧
    (dma_disable_channel (DMA_CHANNEL c) s).1.pingpong_dma c = 0 ∧
    (dma_disable_channel (DMA_CHANNEL c) s).1.clock_idle_disabled
      = s.clock_idle_disabled - 1 := by
  rw [dma_disable_channel_valid c hc, dma_disable_channel_case_inside c s hm hn]
  simp

theorem dma_disable_channel_one_shot_witness :
    (dma_disable_channel (DMA_CHANNEL 0) (sampleOneShot 1001)).2 = [] ∧
    ((dma_disable_channel (DMA_CHANNEL 0) (sampleOneShot 1001)).1.DMA 0).CHEN = 0 ∧
    (dma_disable_channel (DMA_CHANNEL 0) (sampleOneShot 1001)).1.pingpong_dma 0 = 0 ∧
    (dma_disable_channel (DMA_CHANNEL 0) (sampleOneShot 1001)).1.clock_idle_disabled
      = (sampleOneShot 1001).clock_idle_disabled - 1 :=
  dma_disable_channel_one_shot 0 (by decide) (sampleOneShot 1001) (by decide) (by decide)

/-- C16: for a channel `c` in `0..7` whose configured operating mode is continuous or
continuous-ping-pong, `dma_enable_channel(c)` only sets the enable bit of `c` and
`dma_disable_channel(c)` only clears it and resets the half-indicator of `c`; both report
nothing and leave the idle counter unchanged, whatever its value. -/
theorem dma_enable_disable_continuous (c : Nat) (hc : c < 8) (s : Machine)
    (hm : (s.DMA c).MODE = DMA_OPERATING_CONTINUOUS ∨
      (s.DMA c).MODE = DMA_OPERATING_CONTINUOUS_PING_PONG) :
    dma_enable_channel (DMA_CHANNEL c) s
      = ({ s with DMA := upd s.DMA c { s.DMA c with CHEN := 1 } }, []) ∧
    dma_disable_channel (DMA_CHANNEL c) s
      = ({ s with
            DMA := upd s.DMA c { s.DMA c with CHEN := 0 }
            pingpong_dma := upd s.pingpong_dma c 0 }, []) ∧
    (dma_enable_channel (DMA_CHANNEL c) s).1.clock_idle_disabled = s.clock_idle_disabled ∧
    (dma_disable_channel (DMA_CHANNEL c) s).1.clock_idle_disabled = s.clock_idle_disabled := by
  have hne : ¬ ((s.DMA c).MODE = DMA_OPERATING_ONE_SHOT ∨
      (s.DMA c).MODE = DMA_OPERATING_ONE_SHOT_PING_PONG) := by
    simp only [DMA_OPERATING_CONTINUOUS, DMA_OPERATING_CONTINUOUS_PING_PONG,
      DMA_OPERATING_ONE_SHOT, DMA_OPERATING_ONE_SHOT_PING_PONG] at hm ⊢
    omega
  rw [dma_enable_channel_valid c hc, dma_disable_channel_valid c hc,
    dma_enable_channel_case_continuous c s hne, dma_disable_channel_case_continuous c s hne]
  exact ⟨rfl, rfl, rfl, rfl⟩

theorem dma_enable_disable_continuous_witness :
    (dma_enable_channel (DMA_CHANNEL 0) sampleContinuous).1.clock_idle_disabled
        = sampleContinuous.clock_idle_disabled ∧
    (dma_disable_channel (DMA_CHANNEL 0) sampleContinuous).1.clock_idle_disabled
        = sampleContinuous.clock_idle_disabled :=
  (dma_enable_disable_continuous 0 (by decide) sampleContinuous (by decide)).2.2

/-- C17: round trip. For a channel `c` in `0..7` configured in one-shot or one-shot-ping-pong
mode and an idle counter `n` in `[1000, 1999]`, `dma_enable_channel(c)` followed by
`dma_disable_channel(c)` leaves the counter equal to `n`, the enable bit of `c` clear and the
half-indicator of `c` at 0. -/
theorem dma_enable_disable_round_trip (c : Nat) (hc : c < 8) (s : Machine)
    (hm : (s.DMA c).MODE = DMA_OPERATING_ONE_SHOT ∨
      (s.DMA c).MODE = DMA_OPERATING_ONE_SHOT_PING_PONG)
    (hn : 1000 ≤ s.clock_idle_disabled ∧ s.clock_idle_disabled ≤ 1999) :
    (dma_disable_channel (DMA_CHANNEL c)
        (dma_enable_channel (DMA_CHANNEL c) s).1).1.clock_idle_disabled
      = s.clock_idle_disabled ∧
    ((dma_disable_channel (DMA_CHANNEL c)
        (dma_enable_channel (DMA_CHANNEL c) s).1).1.DMA c).CHEN = 0 ∧
    (dma_disable_channel (DMA_CHANNEL c)
        (dma_enable_channel (DMA_CHANNEL c) s).1).1.pingpong_dma c = 0 := by
  rw [dma_enable_channel_valid c hc, dma_enable_channel_case_inside c s hm ⟨hn.1, by omega⟩,
    dma_disable_channel_valid c hc,
    dma_disable_channel_case_inside c _ (by simpa using hm) (by simp only []; omega)]
  simp

theorem dma_enable_disable_round_trip_witness :
    (dma_disable_channel (DMA_CHANNEL 0)
        (dma_enable_channel (DMA_CHANNEL 0) (sampleOneShot 1999)).1).1.clock_idle_disabled
      = (sampleOneShot 1999).clock_idle_disabled :=
  (dma_enable_disable_round_trip 0 (by decide) (sampleOneShot 1999) (by decide)
    (by decide)).1

/-- C18 as stated fails after one release: from the start-up state, whose counter is the
baseline 1000, one call of `clock_enable_idle` leaves the counter at 999, outside
`[1000, 2000]`. -/
theorem clock_enable_idle_leaves_range :
    Machine.initial.clock_idle_disabled = 1000 ∧
    (run_clock_calls [.enable_idle] Machine.initial).clock_idle_disabled = 999 ∧
    ¬ (1000 ≤ (run_clock_calls [.enable_idle] Machine.initial).clock_idle_disabled ∧
      (run_clock_calls [.enable_idle] Machine.initial).clock_idle_disabled ≤ 2000) := by
  refine ⟨by decide, by decide, by decide⟩

/-- C18 amended: starting from the baseline value 1000, after any finite sequence of
`clock_disable_idle` and `clock_enable_idle` calls the idle counter lies in `[999, 2001]`. -/
theorem clock_idle_counter_bounds (calls : List ClockCall) (s : Machine)
    (h : s.clock_idle_disabled = 1000) :
    999 ≤ (run_clock_calls calls s).clock_idle_disabled ∧
      (run_clock_calls calls s).clock_idle_disabled ≤ 2001 :=
  run_clock_calls_bounds calls s (by omega)

theorem clock_idle_counter_bounds_witness :
    999 ≤ (run_clock_calls [.disable_idle, .enable_idle, .enable_idle, .disable_idle]
        Machine.initial).clock_idle_disabled ∧
      (run_clock_calls [.disable_idle, .enable_idle, .enable_idle, .disable_idle]
        Machine.initial).clock_idle_disabled ≤ 2001 :=
  clock_idle_counter_bounds [.disable_idle, .enable_idle, .enable_idle, .disable_idle]
    Machine.initial (by decide)

/-- C19 as stated fails on calls that do not pair up: after configuring channel 0 in one-shot
mode and enabling it twice, the idle counter is 1002 while one channel is enabled in a one-shot
mode; after configuring channel 0 in one-shot mode and disabling it without having enabled it,
the counter is 999 while no channel is enabled. All calls are on the valid channel 0. -/
theorem dma_idle_counter_miscounts :
    (on_valid_channels sampleDoubleEnable = true ∧
      (run_dma_calls samplePlatform sampleDoubleEnable Machine.initial).clock_idle_disabled
        = 1002 ∧
      one_shot_enabled_count (run_dma_calls samplePlatform sampleDoubleEnable Machine.initial)
        = 1) ∧
    (on_valid_channels sampleDisableFirst = true ∧
      (run_dma_calls samplePlatform sampleDisableFirst Machine.initial).clock_idle_disabled
        = 999 ∧
      one_shot_enabled_count (run_dma_calls samplePlatform sampleDisableFirst Machine.initial)
        = 0) := by
  refine ⟨⟨by decide, by decide, by decide⟩, by decide, by decide, by decide⟩

/-- C19 amended: from a state with all channels disabled and the idle counter at 1000, after any
sequence of `dma_init_channel`, `dma_enable_channel`, `dma_disable_channel`,
`dma_start_transfer` and `dma_set_priority` calls on valid channels in which `dma_init_channel`
and `dma_enable_channel` are called only on a channel whose enable bit is clear and
`dma_disable_channel` only on a channel whose enable bit is set, the idle counter equals 1000
plus the number of channels whose enable bit is set and whose operating mode is one-shot or
one-shot-ping-pong. -/
theorem dma_idle_counter_invariant (p : Platform) (calls : List DmaCall) (s : Machine)
    (hs : s.clock_idle_disabled = 1000 ∧ ∀ c, c < 8 → (s.DMA c).CHEN = 0)
    (hp : paired_calls p calls s = true) :
    (run_dma_calls p calls s).clock_idle_disabled
      = 1000 + (one_shot_enabled_count (run_dma_calls p calls s) : Int) := by
  apply run_dma_calls_invariant p calls s _ hp
  rw [one_shot_enabled_count_disabled s hs.2, hs.1]
  rfl

theorem dma_idle_counter_invariant_witness :
    (run_dma_calls samplePlatform samplePairedCalls Machine.initial).clock_idle_disabled
      = 1000 + (one_shot_enabled_count
          (run_dma_calls samplePlatform samplePairedCalls Machine.initial) : Int) :=
  dma_idle_counter_invariant samplePlatform samplePairedCalls Machine.initial
    ⟨rfl, fun _ _ => rfl⟩ (by decide)

/-- C20: when the idle counter is outside `[1000, 2000]`, `clock_disable_idle` and
`clock_enable_idle` leave the state as it is; when it is inside `[1000, 2000]` they change the
counter by exactly `+1` and `-1` respectively, and nothing else. -/
theorem clock_idle_guard (s : Machine) :
    ((s.clock_idle_disabled < 1000 ∨ 2000 < s.clock_idle_disabled) →
      clock_disable_idle s = s ∧ clock_enable_idle s = s) ∧
    ((1000 ≤ s.clock_idle_disabled ∧ s.clock_idle_disabled ≤ 2000) →
      clock_disable_idle s = { s with clock_idle_disabled := s.clock_idle_disabled + 1 } ∧
      clock_enable_idle s = { s with clock_idle_disabled := s.clock_idle_disabled - 1 }) :=
  ⟨fun h => ⟨clock_disable_idle_outside s h, clock_enable_idle_outside s h⟩,
    fun h => ⟨clock_disable_idle_inside s h, clock_enable_idle_inside s h⟩⟩

theorem clock_idle_guard_witness :
    (clock_disable_idle (sampleOneShot 2001) = sampleOneShot 2001 ∧
      clock_enable_idle (sampleOneShot 2001) = sampleOneShot 2001) ∧
    (clock_disable_idle (sampleOneShot 2000)
        = { sampleOneShot 2000 with
            clock_idle_disabled := (sampleOneShot 2000).clock_idle_disabled + 1 } ∧
      clock_enable_idle (sampleOneShot 2000)
        = { sampleOneShot 2000 with
            clock_idle_disabled := (sampleOneShot 2000).clock_idle_disabled - 1 }) :=
  ⟨(clock_idle_guard (sampleOneShot 2001)).1 (by decide),
    (clock_idle_guard (sampleOneShot 2000)).2 (by decide)⟩

/-- C21: `clock_idle` executes the low-power wait if and only if the idle counter equals the
baseline 1000; in every case it leaves the state as it is. -/
theorem clock_idle_iff_baseline (s : Machine) :
    ((clock_idle s).2 = true ↔ s.clock_idle_disabled = 1000) ∧ (clock_idle s).1 = s := by
  unfold clock_idle
  split <;> simp [*]

/-- C22: whatever the idle counter was before (in range or not), `clock_idle` called right after
`clock_disable_idle` does not execute the low-power wait and leaves the state as it is. The same
holds for the earlier boolean switch of `trunk/clock/clock.c`, whatever its prior value. -/
theorem clock_idle_after_disable_returns (s : Machine) (t : TrunkClock) :
    (clock_idle (clock_disable_idle s)).2 = false ∧
    (clock_idle (clock_disable_idle s)).1 = clock_disable_idle s ∧
    (t.clock_disable_idle.clock_idle).2 = false ∧
    (t.clock_disable_idle.clock_idle).1 = t.clock_disable_idle := by
  have hne : (clock_disable_idle s).clock_idle_disabled ≠ 1000 := by
    simp only [clock_disable_idle, atomic_add]
    split
    · simp only []; omega
    · omega
  refine ⟨?_, ?_, ?_, ?_⟩
  · simp only [clock_idle, if_neg hne]
  · simp only [clock_idle, if_neg hne]
  · simp [TrunkClock.clock_idle, TrunkClock.clock_disable_idle]
  · simp [TrunkClock.clock_idle, TrunkClock.clock_disable_idle]

/-- C23: for a channel `c` in `0..7`, `dma_set_priority(c, p)` with `p` outside `[1, 7]` reports
`GENERIC_ERROR_INVALID_INTERRUPT_PRIORITY` and returns the state unchanged; with `p` in `[1, 7]`
it reports nothing, sets the interrupt priority of `c` to `p` and changes nothing else: every
other field of `c`, every other channel, the callback slots, the half-indicators and the idle
counter stay as they were. -/
theorem dma_set_priority_effect (c : Nat) (hc : c < 8) (prio : Int) (s : Machine) :
    (¬ (1 ≤ prio ∧ prio ≤ 7) →
      dma_set_priority (DMA_CHANNEL c) prio s
        = (s, [⟨.GENERIC_ERROR_INVALID_INTERRUPT_PRIORITY, prio⟩])) ∧
    ((1 ≤ prio ∧ prio ≤ 7) →
      dma_set_priority (DMA_CHANNEL c) prio s
          = ({ s with DMA := upd s.DMA c { s.DMA c with IP := prio } }, []) ∧
        ((dma_set_priority (DMA_CHANNEL c) prio s).1.DMA c).IP = prio ∧
        ∀ d, d ≠ c → (dma_set_priority (DMA_CHANNEL c) prio s).1.DMA d = s.DMA d) := by
  constructor
  · intro h
    simp only [dma_set_priority, ERROR_CHECK_RANGE_true _ _ _ h, if_true, error_report]
  · intro h
    rw [dma_set_priority_valid c hc prio h s]
    refine ⟨rfl, by simp [dma_set_priority_case], ?_⟩
    intro d hd
    simp [dma_set_priority_case, upd_other _ _ _ _ hd]

theorem dma_set_priority_effect_witness :
    dma_set_priority (DMA_CHANNEL 3) 0 Machine.initial
        = (Machine.initial, [⟨.GENERIC_ERROR_INVALID_INTERRUPT_PRIORITY, 0⟩]) ∧
    ((dma_set_priority (DMA_CHANNEL 3) 6 Machine.initial).1.DMA 3).IP = 6 :=
  ⟨(dma_set_priority_effect 3 (by decide) 0 Machine.initial).1 (by decide),
    ((dma_set_priority_effect 3 (by decide) 6 Machine.initial).2 (by decide)).2.1⟩

/-- C24: from any prior clock state, `clock_get_target_bogomips` returns 30 after
`clock_init_internal_rc_30` and 40 after `clock_init_internal_rc_40`, and these are the values
`clock_init_internal_rc_from_n1_m_n2` computes as `(Fcy + 500000) / 1000000` for the parameters
`(8, 130, 2)` and `(6, 130, 2)`, where `Fcy = ((7370000 * m) / (n1 * n2)) / 2` is 29940625 and
39920833 in unsigned 32-bit arithmetic. -/
theorem clock_target_bogomips_agree (k : ClockState) :
    (clock_init_internal_rc_30 k).map clock_get_target_bogomips = some 30 ∧
    (clock_init_internal_rc_40 k).map clock_get_target_bogomips = some 40 ∧
    (clock_init_internal_rc_from_n1_m_n2 8 130 2 k).map clock_get_target_bogomips = some 30 ∧
    (clock_init_internal_rc_from_n1_m_n2 6 130 2 k).map clock_get_target_bogomips = some 40 ∧
    (clock_init_internal_rc_from_n1_m_n2 8 130 2 k).map ClockState.fcy = some 29940625 ∧
    (clock_init_internal_rc_from_n1_m_n2 6 130 2 k).map ClockState.fcy = some 39920833 ∧
    (29940625 + 500000) / 1000000 = 30 ∧ (39920833 + 500000) / 1000000 = 40 := by
  simp [clock_init_internal_rc_30, clock_init_internal_rc_40,
    clock_init_internal_rc_from_n1_m_n2, setup_pll, clock_get_target_bogomips]

/-- C25: on a channel `c` in `0..7` whose slot holds a non-null callback `cb`, one completion
event runs and makes exactly one call, `cb(c, is_first_half)` with `is_first_half` true exactly
when the half-indicator of `c` is 0 before the event. The state `s_in` the callback is started
in is the state before the event with the pending flag of `c` cleared and nothing else changed
(the half-indicator not yet flipped); the state `s_fin` the handler leaves is the state `s_out`
the callback returned with the half-indicator of `c` flipped and nothing else changed. -/
theorem DMAxInterrupt_order (code : CallbackTable) (c cb : Nat) (_hc : c < 8) (hcb : cb ≠ 0)
    (s : Machine) (hreg : s.DMA_Data c = cb) :
    ∃ s_in s_out s_fin,
      DMAxInterrupt code c s
        = some (s_fin, ⟨cb, DMA_CHANNEL c, decide (s.pingpong_dma c = 0)⟩) ∧
      s_out = code cb (DMA_CHANNEL c) (decide (s.pingpong_dma c = 0)) s_in ∧
      (s_in.DMA c) = { s.DMA c with IF := 0 } ∧ (s_in.DMA c).IF = 0 ∧
      (∀ d, d ≠ c → s_in.DMA d = s.DMA d) ∧
      s_in.pingpong_dma = s.pingpong_dma ∧ s_in.DMA_Data = s.DMA_Data ∧
      s_in.clock_idle_disabled = s.clock_idle_disabled ∧
      s_fin.pingpong_dma c = (s_out.pingpong_dma c ^^^ 1) % 256 ∧
      (s_out.pingpong_dma c = 0 → s_fin.pingpong_dma c = 1) ∧
      (s_out.pingpong_dma c = 1 → s_fin.pingpong_dma c = 0) ∧
      (∀ d, d ≠ c → s_fin.pingpong_dma d = s_out.pingpong_dma d) ∧
      s_fin.DMA = s_out.DMA ∧ s_fin.DMA_Data = s_out.DMA_Data ∧
      s_fin.clock_idle_disabled = s_out.clock_idle_disabled := by
  have hrun : DMAxInterrupt code c s
      = some ({ code cb (DMA_CHANNEL c) (decide (s.pingpong_dma c = 0))
                  { s with DMA := upd s.DMA c { s.DMA c with IF := 0 } } with
                pingpong_dma :=
                  upd (code cb (DMA_CHANNEL c) (decide (s.pingpong_dma c = 0))
                      { s with DMA := upd s.DMA c { s.DMA c with IF := 0 } }).pingpong_dma c
                    (((code cb (DMA_CHANNEL c) (decide (s.pingpong_dma c = 0))
                      { s with DMA := upd s.DMA c { s.DMA c with IF := 0 } }).pingpong_dma c
                      ^^^ 1) % 256) },
          ⟨cb, DMA_CHANNEL c, decide (s.pingpong_dma c = 0)⟩) := by
    simp only [DMAxInterrupt, hreg, if_neg hcb]
  refine ⟨{ s with DMA := upd s.DMA c { s.DMA c with IF := 0 } }, _, _, hrun, rfl, ?_, ?_, ?_,
    rfl, rfl, rfl, ?_, ?_, ?_, ?_, rfl, rfl, rfl⟩
  · simp
  · simp
  · intro d hd
    simp [upd_other _ _ _ _ hd]
  · simp
  · intro h0
    simp [h0]
  · intro h1
    simp [h1]
  · intro d hd
    simp [upd_other _ _ _ _ hd]

theorem DMAxInterrupt_order_witness :
    (DMAxInterrupt idleCallbacks 2 sampleRegistered).map Prod.snd
      = some ⟨7, DMA_CHANNEL 2, true⟩ := by
  obtain ⟨s_in, s_out, s_fin, hrun, -⟩ :=
    DMAxInterrupt_order idleCallbacks 2 7 (by decide) (by decide) sampleRegistered (by decide)
  rw [hrun]
  rfl

/-- C26, what the code does instead: when the callback registered on a channel `c` in `0..7`
calls `dma_disable_channel(c)`, the completion handler flips the half-indicator after the
callback has reset it, so the handler returns with the half-indicator of `c` at 1 (and the enable
bit clear), and the next completion event on `c` reports `is_first_half = false`. -/
theorem DMAxInterrupt_after_disabling_callback (code : CallbackTable) (c cb : Nat) (hc : c < 8)
    (hcb : cb ≠ 0) (hcode : ∀ ch b s, code cb ch b s = (dma_disable_channel ch s).1)
    (s : Machine) (hreg : s.DMA_Data c = cb) :
    (∃ s1, DMAxInterrupt code c s
        = some (s1, ⟨cb, DMA_CHANNEL c, decide (s.pingpong_dma c = 0)⟩) ∧
      s1.pingpong_dma c = 1 ∧ (s1.DMA c).CHEN = 0) ∧
    (DMAxInterrupts code c 2 s).map (fun r => r.2.map Invocation.is_first_half)
      = some [decide (s.pingpong_dma c = 0), false] := by
  have step : ∀ s : Machine, s.DMA_Data c = cb →
      ∃ s1, DMAxInterrupt code c s
          = some (s1, ⟨cb, DMA_CHANNEL c, decide (s.pingpong_dma c = 0)⟩) ∧
        s1.pingpong_dma c = 1 ∧ (s1.DMA c).CHEN = 0 ∧ s1.DMA_Data c = cb := by
    intro s hreg
    have hf := dma_disable_channel_case_fields c
      { s with DMA := upd s.DMA c { s.DMA c with IF := 0 } }
    simp only [DMAxInterrupt, hreg, if_neg hcb, hcode, dma_disable_channel_valid c hc]
    refine ⟨_, rfl, ?_, ?_, ?_⟩
    · simp only [upd_same, hf.1]
      rfl
    · exact hf.2.1
    · simp only [hf.2.2, hreg]
  obtain ⟨s1, h1, hp1, hen1, hd1⟩ := step s hreg
  obtain ⟨s2, h2, -⟩ := step s1 hd1
  refine ⟨⟨s1, h1, hp1, hen1⟩, ?_⟩
  simp [DMAxInterrupts, h1, h2, hp1]

theorem DMAxInterrupt_after_disabling_callback_witness :
    (run_dma_calls samplePlatform
        [.init_channel 0 0 1 0 0 0 0 DMA_OPERATING_ONE_SHOT_PING_PONG 0x4000 0x4100 0x220 16 7,
         .enable_channel 0] Machine.initial).pingpong_dma 0 = 0 ∧
    (DMAxInterrupts disablingCallbacks 0 2
        (run_dma_calls samplePlatform
          [.init_channel 0 0 1 0 0 0 0 DMA_OPERATING_ONE_SHOT_PING_PONG 0x4000 0x4100 0x220 16 7,
           .enable_channel 0] Machine.initial)).map
        (fun r => r.2.map Invocation.is_first_half)
      = some [decide ((run_dma_calls samplePlatform
          [.init_channel 0 0 1 0 0 0 0 DMA_OPERATING_ONE_SHOT_PING_PONG 0x4000 0x4100 0x220 16 7,
           .enable_channel 0] Machine.initial).pingpong_dma 0 = 0), false] :=
  ⟨by decide,
    (DMAxInterrupt_after_disabling_callback disablingCallbacks 0 7 (by decide) (by decide)
      (fun _ _ _ => rfl) _ (by decide)).2⟩

/-- C27, evaluated on channels 5 and 0: after callback 9 was registered on channel 0,
`dma_init_channel` on channel 5 with callback 7 overwrites the callback slot of channel 0
(`DMA_Data[0]` changes from 9 to 7), although channel 0 is not the channel being configured. -/
theorem dma_init_channel_5_overwrites_slot_0 :
    (run_dma_calls samplePlatform (sampleRegisterTwo.take 1) Machine.initial).DMA_Data 0 = 9 ∧
    (run_dma_calls samplePlatform sampleRegisterTwo Machine.initial).DMA_Data 0 = 7 ∧
    (run_dma_calls samplePlatform sampleRegisterTwo Machine.initial).DMA_Data 0
      ≠ (run_dma_calls samplePlatform (sampleRegisterTwo.take 1) Machine.initial).DMA_Data 0 := by
  refine ⟨by decide, by decide, by decide⟩

/-- C28, evaluated on channel 5: from the start-up state (all callback slots null, all interrupt
enable bits clear), one error-free `dma_init_channel` on channel 5 with the non-null callback 7
leaves the interrupt-enable bit of channel 5 set while `DMA_Data[5]` is null, so the completion
handler of channel 5 calls through a null pointer. -/
theorem dma_init_channel_5_enables_null_callback :
    (dma_init_channel samplePlatform 5 0 1 0 0 0 0 DMA_OPERATING_CONTINUOUS 0x4100 0 0x220 16 7
        Machine.initial).2 = [] ∧
    ((run_dma_calls samplePlatform sampleRegisterFive Machine.initial).DMA 5).IE = 1 ∧
    (run_dma_calls samplePlatform sampleRegisterFive Machine.initial).DMA_Data 5 = 0 ∧
    (DMAxInterrupt idleCallbacks 5
        (run_dma_calls samplePlatform sampleRegisterFive Machine.initial)).isNone = true := by
  refine ⟨by decide, by decide, by decide, by decide⟩

/-- C29: for a channel `c` in `0..7` and every argument tuple, `dma_init_channel(c, ...)` leaves
every half-indicator and the idle counter exactly as they were, whatever the enable bit and the
operating mode of `c` were beforehand; with legal enumerated arguments it does clear the enable
bit of `c`. -/
theorem dma_init_channel_keeps_indicator_and_counter (p : Platform) (c : Nat) (hc : c < 8)
    (request_source data_size transfer_dir interrupt_pos null_write addressing_mode
      operating_mode : Int)
    (a b peripheral_address transfer_count callback : Nat) (s : Machine) :
    (dma_init_channel p (DMA_CHANNEL c) request_source data_size transfer_dir interrupt_pos
        null_write addressing_mode operating_mode a b peripheral_address transfer_count
        callback s).1.pingpong_dma = s.pingpong_dma ∧
    (dma_init_channel p (DMA_CHANNEL c) request_source data_size transfer_dir interrupt_pos
        null_write addressing_mode operating_mode a b peripheral_address transfer_count
        callback s).1.clock_idle_disabled = s.clock_idle_disabled ∧
    ((request_source ∈ p.request_sources ∧ (0 ≤ data_size ∧ data_size ≤ 1) ∧
        (0 ≤ transfer_dir ∧ transfer_dir ≤ 1) ∧ (0 ≤ interrupt_pos ∧ interrupt_pos ≤ 1) ∧
        (0 ≤ null_write ∧ null_write ≤ 1) ∧ (0 ≤ addressing_mode ∧ addressing_mode ≤ 2) ∧
        (0 ≤ operating_mode ∧ operating_mode ≤ 3)) →
      ((dma_init_channel p (DMA_CHANNEL c) request_source data_size transfer_dir interrupt_pos
        null_write addressing_mode operating_mode a b peripheral_address transfer_count
        callback s).1.DMA c).CHEN = 0) := by
  rcases dma_init_channel_abort_or_legal p (DMA_CHANNEL c) request_source data_size
    transfer_dir interrupt_pos null_write addressing_mode operating_mode a b
    peripheral_address transfer_count callback s with ⟨e, he⟩ | ⟨k1, k2, k3, k4, k5, k6, k7⟩
  · refine ⟨by rw [he], by rw [he], ?_⟩
    intro hl
    rw [dma_init_channel_dispatch p c hc _ _ _ _ _ _ _ _ _ _ _ _ s hl.1 hl.2.1 hl.2.2.1
      hl.2.2.2.1 hl.2.2.2.2.1 hl.2.2.2.2.2.1 hl.2.2.2.2.2.2]
    simp [dma_init_channel_case]
  · rw [dma_init_channel_dispatch p c hc _ _ _ _ _ _ _ _ _ _ _ _ s k1 k2 k3 k4 k5 k6 k7]
    refine ⟨rfl, rfl, ?_⟩
    intro _
    simp [dma_init_channel_case]

theorem dma_init_channel_keeps_indicator_and_counter_witness :
    (sampleEnabledSecondHalf.DMA 0).CHEN = 1 ∧
    sampleEnabledSecondHalf.pingpong_dma 0 = 1 ∧
    sampleEnabledSecondHalf.clock_idle_disabled = 1001 ∧
    (dma_init_channel samplePlatform (DMA_CHANNEL 0) 0 1 0 0 0 0 DMA_OPERATING_CONTINUOUS 0x4000
        0 0x220 16 7 sampleEnabledSecondHalf).1.pingpong_dma 0 = 1 ∧
    (dma_init_channel samplePlatform (DMA_CHANNEL 0) 0 1 0 0 0 0 DMA_OPERATING_CONTINUOUS 0x4000
        0 0x220 16 7 sampleEnabledSecondHalf).1.clock_idle_disabled = 1001 ∧
    ((dma_init_channel samplePlatform (DMA_CHANNEL 0) 0 1 0 0 0 0 DMA_OPERATING_CONTINUOUS 0x4000
        0 0x220 16 7 sampleEnabledSecondHalf).1.DMA 0).CHEN = 0 := by
  have h := dma_init_channel_keeps_indicator_and_counter samplePlatform 0 (by decide) 0 1 0 0 0
    0 DMA_OPERATING_CONTINUOUS 0x4000 0 0x220 16 7 sampleEnabledSecondHalf
  have h1 : sampleEnabledSecondHalf.pingpong_dma 0 = 1 := by decide
  have h2 : sampleEnabledSecondHalf.clock_idle_disabled = 1001 := by decide
  refine ⟨by decide, h1, h2, ?_, ?_, ?_⟩
  · rw [h.1]; exact h1
  · rw [h.2.1]; exact h2
  · exact h.2.2 (by decide)

/-- C30, what the code does instead: for a `pwm_id` that is none of `PWM_1` to `PWM_4`,
`pwm_disable` and `pwm_set_duty` report `PWM_ERROR_INVALID_PWM_ID` once and return from inside
the switch, after `PWMCON2bits.UDIS = 1` and before `PWMCON2bits.UDIS = 0`: every other PWM
register is as before, but the update-disable bit is left at 1 whatever it was. -/
theorem pwm_invalid_id_leaves_updates_disabled (h : PwmHeader) (pwm_id duty : Int)
    (s : PwmState)
    (hid : pwm_id ≠ h.PWM_1 ∧ pwm_id ≠ h.PWM_2 ∧ pwm_id ≠ h.PWM_3 ∧ pwm_id ≠ h.PWM_4) :
    pwm_disable h pwm_id s
        = ({ s with UDIS := 1 }, [⟨.PWM_ERROR_INVALID_PWM_ID, pwm_id⟩]) ∧
    pwm_set_duty h pwm_id duty s
        = ({ s with UDIS := 1 }, [⟨.PWM_ERROR_INVALID_PWM_ID, pwm_id⟩]) ∧
    (pwm_disable h pwm_id s).1.UDIS = 1 ∧ (pwm_set_duty h pwm_id duty s).1.UDIS = 1 := by
  obtain ⟨h1, h2⟩ := pwm_invalid_id h pwm_id duty s hid
  refine ⟨h1, h2, by rw [h1], by rw [h2]⟩

theorem pwm_invalid_id_leaves_updates_disabled_witness :
    samplePwm.UDIS = 0 ∧ (pwm_disable samplePwmHeader 99 samplePwm).1.UDIS = 1 ∧
      (pwm_set_duty samplePwmHeader 99 100 samplePwm).1.UDIS = 1 :=
  ⟨rfl,
    (pwm_invalid_id_leaves_updates_disabled samplePwmHeader 99 100 samplePwm
      (by decide)).2.2.1,
    (pwm_invalid_id_leaves_updates_disabled samplePwmHeader 99 100 samplePwm
      (by decide)).2.2.2⟩

end Molole
